import Mathlib

/-!
# mtg proxy: client initialisation and the per-connection pipeline

A shallow embedding of `client/direct.go`, `client/middle.go` and
`proxy/proxy.go`.  Stateful Go code is written as explicit state passing:
every function takes the part of the world it touches (socket, anti-replay
cache, log) and returns the new one together with its Go result.  A Go
function either returns or panics; a blocking call that never completes is
an explicit third exit where it can occur.
-/

namespace Mtg

/-! ## Basic Go values -/

abbrev Byte := Nat

/-- An error value of `github.com/juju/errors`: `errors.New` and
`errors.Annotate`. -/
inductive Error where
  | new (msg : String)
  | annotate (cause : Error) (msg : String)
  deriving DecidableEq, Repr

/-- How a Go call ends: it returns a value or it panics. -/
inductive GoExit (α : Type) where
  | returned (a : α)
  | panicked (msg : String)
  deriving DecidableEq, Repr

/-! ## Package mtproto (declarations used by the source files) -/

/-- The connection type of `mtproto.ConnectionOpts`; `Unknown` stands for
every value of the underlying integer type that is none of the three named
constants. -/
inductive ConnectionType where
  | Unknown
  | Abridged
  | Intermediate
  | Secure
  deriving DecidableEq, Repr

inductive ConnectionProtocol where
  | IPv4
  | IPv6
  | Any
  deriving DecidableEq, Repr

/-- The block `mtproto.Hacks`: per-message flags written by the framers. -/
structure Hacks where
  SimpleAck : Bool
  QuickAck : Bool
  deriving DecidableEq, Repr

structure TCPAddr where
  IP : List Byte
  Port : Nat
  deriving DecidableEq, Repr

structure ConnectionOpts where
  DC : Int
  ConnectionType : ConnectionType
  ConnectionProto : ConnectionProtocol
  ReadHacks : Hacks
  WriteHacks : Hacks
  ClientAddr : Option TCPAddr
  deriving DecidableEq, Repr

/-! ## Package config (fields read by the source files) -/

structure Config where
  ReadBufferSize : Nat
  WriteBufferSize : Nat
  SecureOnly : Bool
  PublicIPv4 : List Byte
  PublicIPv6 : List Byte
  AdTag : List Byte
  deriving DecidableEq, Repr

/-- Modelled from the spec: `Config.UseMiddleProxy`, whose body is not among
the source files; middle mode is the mode that forwards an `ad_tag`, so it is
on exactly when one is configured. -/
def Config.UseMiddleProxy (conf : Config) : Bool :=
  !conf.AdTag.isEmpty

/-! ## Package net: the accepted socket -/

/-- The method `net.IP.To4` of the Go standard library: the 4-byte form of an
address, or nil (`none`). -/
def IP.To4 (ip : List Byte) : Option (List Byte) :=
  if ip.length = 4 then some ip
  else if ip.length = 16 ∧ (ip.take 10).all (fun b => b == 0) ∧
      ip.getD 10 0 = 0xff ∧ ip.getD 11 0 = 0xff then
    some (ip.drop 12)
  else none

/-- A method call made on the accepted socket. -/
inductive SocketCall where
  | setNoDelay (noDelay : Bool)
  | setReadBuffer (bytes : Nat)
  | setWriteBuffer (bytes : Nat)
  | setReadDeadline (t : Option Nat)
  | read (bytes : Nat)
  deriving DecidableEq, Repr

/-- The accepted `net.Conn` together with what its peer and the operating
system will do: `incoming` are the bytes the peer delivers before the read
deadline or end of stream, the three fields `set...Err` are the errors (if
any) the corresponding socket option calls return, and `calls` records the
method calls made so far, oldest first. -/
structure Socket where
  isTCPConn : Bool
  localAddr : TCPAddr
  remoteAddr : TCPAddr
  noDelay : Bool
  readBuffer : Nat
  writeBuffer : Nat
  readDeadline : Option Nat
  incoming : List Byte
  setNoDelayErr : Option Error
  setReadBufferErr : Option Error
  setWriteBufferErr : Option Error
  calls : List SocketCall
  deriving DecidableEq, Repr

/-- The method `(*net.TCPConn).SetNoDelay`: on success the no-delay option of
the socket is the argument (on: segments are sent at once, Nagle's algorithm
off; off: Nagle's algorithm on). -/
def Socket.SetNoDelay (s : Socket) (noDelay : Bool) : Option Error × Socket :=
  match s.setNoDelayErr with
  | some e => (some e, { s with calls := s.calls ++ [.setNoDelay noDelay] })
  | none => (none, { s with noDelay := noDelay, calls := s.calls ++ [.setNoDelay noDelay] })

def Socket.SetReadBuffer (s : Socket) (bytes : Nat) : Option Error × Socket :=
  match s.setReadBufferErr with
  | some e => (some e, { s with calls := s.calls ++ [.setReadBuffer bytes] })
  | none => (none, { s with readBuffer := bytes, calls := s.calls ++ [.setReadBuffer bytes] })

def Socket.SetWriteBuffer (s : Socket) (bytes : Nat) : Option Error × Socket :=
  match s.setWriteBufferErr with
  | some e => (some e, { s with calls := s.calls ++ [.setWriteBuffer bytes] })
  | none => (none, { s with writeBuffer := bytes, calls := s.calls ++ [.setWriteBuffer bytes] })

/-- The method `SetReadDeadline`; the zero time (`none`) clears the
deadline. -/
def Socket.SetReadDeadline (s : Socket) (t : Option Nat) : Socket :=
  { s with readDeadline := t, calls := s.calls ++ [.setReadDeadline t] }

/-- Nanoseconds in `10 * time.Second`. -/
def handshakeTimeout : Nat := 10 * 1000000000

/-! ## Package obfuscated2 -/

abbrev Frame := List Byte

abbrev Secret := List Byte

/-- Length of the handshake frame. -/
def FrameLen : Nat := 64

/-- Modelled from the spec: `obfuscated2.ExtractFrame`, whose body is not
among the source files: exactly 64 bytes are read from the client before any
other byte; a short read (or the deadline) fails. -/
def ExtractFrame (s : Socket) : Except Error Frame × Socket :=
  if FrameLen ≤ s.incoming.length then
    (.ok (s.incoming.take FrameLen),
      { s with incoming := s.incoming.drop FrameLen, calls := s.calls ++ [.read FrameLen] })
  else
    (.error (.new "HandshakeIO"),
      { s with incoming := [], calls := s.calls ++ [.read FrameLen] })

abbrev Cipher := List Byte

/-- The cipher pair produced by the codec. -/
structure Obfuscated2 where
  Encryptor : Cipher
  Decryptor : Cipher
  deriving DecidableEq, Repr

/-- The type of `obfuscated2.ParseObfuscated2ClientFrame`; the codec itself
is not among the source files and is a parameter of the embedding. -/
abbrev FrameParser := List Secret → Frame → Except Error (Obfuscated2 × ConnectionOpts)

/-! ## Package antireplay -/

/-- The interface `antireplay.Cache`, over a type `σ` of cache states: `Has`
is a query and `Add` yields the next state.  The implementation is not among
the source files; everything is stated for an arbitrary one. -/
structure Cache (σ : Type) where
  Has : σ → Frame → Bool
  Add : σ → Frame → σ

/-- A call made on the anti-replay cache. -/
inductive CacheOp where
  | has (key : Frame) (present : Bool)
  | add (key : Frame)
  deriving DecidableEq, Repr

def CacheOp.isAdd : CacheOp → Bool
  | .add _ => true
  | .has _ _ => false

/-- Modelled from the spec: a cache that never evicts, a set of keys: an
entry is present iff its key was inserted. -/
def setCache : Cache (List Frame) where
  Has := fun c k => c.contains k
  Add := fun c k => if c.contains k then c else k :: c

/-! ## Package wrappers -/

inductive ConnPurpose where
  | Client
  | Telegram
  deriving DecidableEq, Repr

/-- The connection wrappers of package `wrappers` built by the source
files. -/
inductive Wrap where
  | conn (socket : Socket) (connID : String) (purpose : ConnPurpose)
      (publicIPv4 publicIPv6 : List Byte)
  | streamCipher (parent : Wrap) (encryptor decryptor : Cipher)
  | mtprotoAbridged (parent : Wrap)
  | mtprotoIntermediate (parent : Wrap)
  | mtprotoIntermediateSecure (parent : Wrap)
  deriving DecidableEq, Repr

/-- Whether the dynamic type implements `wrappers.StreamReadWriteCloser`. -/
def Wrap.isStream : Wrap → Bool
  | .conn .. => true
  | .streamCipher .. => true
  | _ => false

/-- Whether the dynamic type implements `wrappers.PacketReadWriteCloser`. -/
def Wrap.isPacket : Wrap → Bool
  | .mtprotoAbridged _ => true
  | .mtprotoIntermediate _ => true
  | .mtprotoIntermediateSecure _ => true
  | _ => false

/-- The accepted socket at the bottom of a wrapper stack. -/
def Wrap.socket : Wrap → Socket
  | .conn s _ _ _ _ => s
  | .streamCipher p _ _ => p.socket
  | .mtprotoAbridged p => p.socket
  | .mtprotoIntermediate p => p.socket
  | .mtprotoIntermediateSecure p => p.socket

/-- The method `RemoteAddr` of a wrapped connection. -/
def Wrap.RemoteAddr (w : Wrap) : TCPAddr :=
  w.socket.remoteAddr

/-! ## Package client -/

inductive LogLevel where
  | info
  | warn
  | error
  deriving DecidableEq, Repr

structure LogEntry where
  level : LogLevel
  msg : String
  deriving DecidableEq, Repr

/-- What a client initialiser reads and writes: the accepted socket, the
shared anti-replay cache, the calls made on the cache so far, and the log. -/
structure InitWorld (σ : Type) where
  socket : Socket
  cache : σ
  cacheOps : List CacheOp
  log : List LogEntry

/-- The three results of a `client.Init` function. -/
structure InitReturn where
  conn : Option Wrap
  opts : Option ConnectionOpts
  err : Option Error
  deriving DecidableEq, Repr

/-- The function type `client.Init`, with the codec fixed. -/
abbrev Init (σ : Type) :=
  Cache σ → Nat → String → Config → List Secret → InitWorld σ → GoExit InitReturn × InitWorld σ

/-- The function `DirectInit` of `client/direct.go`.  `now` is the value of
`time.Now()` in nanoseconds. -/
def DirectInit {σ : Type} (parse : FrameParser) (C : Cache σ) (now : Nat)
    (connID : String) (conf : Config) (secrets : List Secret) (w : InitWorld σ) :
    GoExit InitReturn × InitWorld σ :=
  if !w.socket.isTCPConn then
    (.panicked "interface conversion: net.Conn is not *net.TCPConn", w)
  else
    match w.socket.SetNoDelay false with
    | (some err, s1) =>
      (.returned ⟨none, none, some (.annotate err "Cannot disable NO_DELAY to client socket")⟩,
        { w with socket := s1 })
    | (none, s1) =>
    match s1.SetReadBuffer conf.ReadBufferSize with
    | (some err, s2) =>
      (.returned ⟨none, none, some (.annotate err "Cannot set read buffer size of client socket")⟩,
        { w with socket := s2 })
    | (none, s2) =>
    match s2.SetWriteBuffer conf.WriteBufferSize with
    | (some err, s3) =>
      (.returned ⟨none, none, some (.annotate err "Cannot set write buffer size of client socket")⟩,
        { w with socket := s3 })
    | (none, s3) =>
    let s4 := s3.SetReadDeadline (some (now + handshakeTimeout))
    match ExtractFrame s4 with
    | (.error err, s5) =>
      (.returned ⟨none, none, some (.annotate err "Cannot extract frame")⟩,
        { w with socket := s5 })
    | (.ok frame, s5) =>
    let s6 := s5.SetReadDeadline none
    let conn := Wrap.conn s6 connID .Client conf.PublicIPv4 conf.PublicIPv6
    match parse secrets frame with
    | .error err =>
      (.returned ⟨none, none, some (.annotate err "Cannot parse obfuscated frame")⟩,
        { w with socket := s6 })
    | .ok (obfs2, connOpts) =>
    if C.Has w.cache frame then
      (.returned ⟨none, none, some (.new "Replay attack is detected")⟩,
        { w with socket := s6, cacheOps := w.cacheOps ++ [.has frame true] })
    else
      let cache1 := C.Add w.cache frame
      let connOpts1 := { connOpts with ConnectionProto := .Any }
      let connOpts2 := { connOpts1 with ClientAddr := some conn.RemoteAddr }
      let conn1 := Wrap.streamCipher conn obfs2.Encryptor obfs2.Decryptor
      (.returned ⟨some conn1, some connOpts2, none⟩,
        { socket := s6, cache := cache1,
          cacheOps := w.cacheOps ++ [.has frame false, .add frame],
          log := w.log ++ [⟨.info, "Client connection initialized"⟩] })

/-- The function `MiddleInit` of `client/middle.go`. -/
def MiddleInit {σ : Type} (parse : FrameParser) (C : Cache σ) (now : Nat)
    (connID : String) (conf : Config) (secrets : List Secret) (w : InitWorld σ) :
    GoExit InitReturn × InitWorld σ :=
  match DirectInit parse C now connID conf secrets w with
  | (.panicked msg, w1) => (.panicked msg, w1)
  | (.returned ⟨_, _, some err⟩, w1) => (.returned ⟨none, none, some err⟩, w1)
  | (.returned ⟨none, _, none⟩, w1) =>
    (.panicked "interface conversion: interface is nil", w1)
  | (.returned ⟨some _, none, none⟩, w1) =>
    (.panicked "invalid memory address or nil pointer dereference", w1)
  | (.returned ⟨some conn, some opts, none⟩, w1) =>
    if !conn.isStream then
      (.panicked "interface conversion: not a wrappers.StreamReadWriteCloser", w1)
    else
      let newConn : Option Wrap :=
        match opts.ConnectionType with
        | .Abridged => some (.mtprotoAbridged conn)
        | .Intermediate => some (.mtprotoIntermediate conn)
        | .Secure => some (.mtprotoIntermediateSecure conn)
        | .Unknown => none
      match newConn with
      | none => (.panicked "Unknown connection type", w1)
      | some newConn =>
        let opts1 := { opts with ConnectionProto := .IPv4 }
        let opts2 :=
          if (IP.To4 w1.socket.localAddr.IP).isNone then
            { opts1 with ConnectionProto := .IPv6 }
          else opts1
        (.returned ⟨some newConn, some opts2, none⟩, w1)

/-! ## Package proxy: the relay pipes -/

abbrev Packet := List Byte

/-- What one call of `src.Read()` does: it returns a packet, returns an
error, or panics; `hacks` is the state in which the framer leaves the hints
block of this direction when the call ends. -/
inductive ReadOutcome where
  | packet (p : Packet) (hacks : Hacks)
  | error (err : Error) (hacks : Hacks)
  | panic (msg : String)
  deriving DecidableEq, Repr

/-- What one call of `dst.Write(packet)` does. -/
inductive WriteOutcome where
  | written (hacks : Hacks)
  | error (err : Error) (hacks : Hacks)
  | panic (msg : String)
  deriving DecidableEq, Repr

/-- What `io.CopyBuffer` does once it is given a non-empty buffer. -/
inductive CopyOutcome where
  | finished (err : Option Error)
  | panic (msg : String)
  | blocked
  deriving DecidableEq, Repr

/-- How a pipe (and `accept`) ends: it returns, it panics, or it stays
blocked in a call that never completes. -/
inductive Exit where
  | returned
  | panicked (msg : String)
  | blocked
  deriving DecidableEq, Repr

/-- Observable steps of a relay pipe.  `readCall hacks` is the moment
`src.Read()` is called, with the flags of the hints block at that moment. -/
inductive PipeEvent where
  | readCall (hacks : Hacks)
  | readReturn (packet : Packet)
  | readError (err : Error)
  | writeCall (packet : Packet)
  | writeReturn
  | writeError (err : Error)
  | makeBuffer (size : Nat)
  | copyBuffer (bufLen : Nat)
  | copyReturn (err : Option Error)
  | warn (msg : String)
  | done
  deriving DecidableEq, Repr

structure PipeRun where
  trace : List PipeEvent
  hacks : Hacks
  exit : Exit
  deriving DecidableEq, Repr

/-- The method `Proxy.middlePipe`.  `reads` and `writes` are the outcomes of
the successive calls of `src.Read` and `dst.Write`; when they run out the
next call never completes.  The deferred `wait.Done()` runs when the
function returns or panics. -/
def middlePipe : List ReadOutcome → List WriteOutcome → Hacks → PipeRun
  | [], _, hacks =>
    let hacks1 := { hacks with SimpleAck := false }
    let hacks2 := { hacks1 with QuickAck := false }
    ⟨[.readCall hacks2], hacks2, .blocked⟩
  | .panic msg :: _, _, hacks =>
    let hacks1 := { hacks with SimpleAck := false }
    let hacks2 := { hacks1 with QuickAck := false }
    ⟨[.readCall hacks2, .done], hacks2, .panicked msg⟩
  | .error err hacks3 :: _, _, hacks =>
    let hacks1 := { hacks with SimpleAck := false }
    let hacks2 := { hacks1 with QuickAck := false }
    ⟨[.readCall hacks2, .readError err, .warn "Cannot read packet", .done], hacks3, .returned⟩
  | .packet packet hacks3 :: _, [], hacks =>
    let hacks1 := { hacks with SimpleAck := false }
    let hacks2 := { hacks1 with QuickAck := false }
    ⟨[.readCall hacks2, .readReturn packet, .writeCall packet], hacks3, .blocked⟩
  | .packet packet hacks3 :: _, .panic msg :: _, hacks =>
    let hacks1 := { hacks with SimpleAck := false }
    let hacks2 := { hacks1 with QuickAck := false }
    ⟨[.readCall hacks2, .readReturn packet, .writeCall packet, .done], hacks3, .panicked msg⟩
  | .packet packet _ :: _, .error err hacks4 :: _, hacks =>
    let hacks1 := { hacks with SimpleAck := false }
    let hacks2 := { hacks1 with QuickAck := false }
    ⟨[.readCall hacks2, .readReturn packet, .writeCall packet, .writeError err,
        .warn "Cannot write packet", .done], hacks4, .returned⟩
  | .packet packet _ :: reads, .written hacks4 :: writes, hacks =>
    let hacks1 := { hacks with SimpleAck := false }
    let hacks2 := { hacks1 with QuickAck := false }
    let rest := middlePipe reads writes hacks4
    ⟨[.readCall hacks2, .readReturn packet, .writeCall packet, .writeReturn] ++ rest.trace,
      rest.hacks, rest.exit⟩

/-- The method `Proxy.directPipe`.  `io.CopyBuffer` panics on an empty
buffer; otherwise `copy` is what it does. -/
def directPipe (copy : CopyOutcome) (bufferSize : Nat) : List PipeEvent × Exit :=
  if bufferSize = 0 then
    ([.makeBuffer bufferSize, .copyBuffer bufferSize, .done],
      .panicked "empty buffer in CopyBuffer")
  else
    match copy with
    | .blocked => ([.makeBuffer bufferSize, .copyBuffer bufferSize], .blocked)
    | .panic msg => ([.makeBuffer bufferSize, .copyBuffer bufferSize, .done], .panicked msg)
    | .finished (some err) =>
      ([.makeBuffer bufferSize, .copyBuffer bufferSize, .copyReturn (some err),
          .warn "Cannot pump sockets", .done], .returned)
    | .finished none =>
      ([.makeBuffer bufferSize, .copyBuffer bufferSize, .copyReturn none, .done], .returned)

/-! ## Package proxy: the connection handler -/

/-- The interface `telegram.Telegram`. -/
structure Telegram where
  Dial : String → Option ConnectionOpts → GoExit (Except Error Wrap)
  Init : Option ConnectionOpts → Wrap → GoExit (Except Error Wrap)

/-- The struct `Proxy`.  The cache state itself travels in the world; the
field `secrets` is what a call of the function stored there produces. -/
structure Proxy (σ : Type) where
  antiReplayCache : Cache σ
  clientInit : Init σ
  tg : Telegram
  conf : Config
  secrets : GoExit (List Secret × Option Error)

/-- The two ends of a relay. -/
inductive Peer where
  | client
  | server
  deriving DecidableEq, Repr

/-- The two hints blocks of the connection options, as the targets of
`&opts.ReadHacks` and `&opts.WriteHacks`. -/
inductive HacksRef where
  | ReadHacks
  | WriteHacks
  deriving DecidableEq, Repr

def HacksRef.load (r : HacksRef) (opts : ConnectionOpts) : Hacks :=
  match r with
  | .ReadHacks => opts.ReadHacks
  | .WriteHacks => opts.WriteHacks

def HacksRef.store (r : HacksRef) (opts : ConnectionOpts) (h : Hacks) : ConnectionOpts :=
  match r with
  | .ReadHacks => { opts with ReadHacks := h }
  | .WriteHacks => { opts with WriteHacks := h }

/-- A pipe invocation with its arguments. -/
inductive PipeCall where
  | middle (src dst : Peer) (hacks : HacksRef)
  | direct (src dst : Peer) (bufferSize : Nat)
  deriving DecidableEq, Repr

/-- Observable steps of `accept`, in the order its goroutine performs
them. -/
inductive Event where
  | log (level : LogLevel) (msg : String)
  | secrets
  | clientInit
  | dial
  | init
  | goWatcher
  | waitAdd (n : Nat)
  | go (c : PipeCall)
  | call (c : PipeCall)
  | pipe (e : PipeEvent)
  | waitWait
  | closeServer
  | closeClient
  | cancel
  | closeConn
  | recover (value : Option String)
  deriving DecidableEq, Repr

/-- What the surroundings of one `accept` call do: the generated connection
id, the clock, the outcomes met by the pipe that `accept` runs itself
(`reads`, `writes`, `copy`) and those met by the pipe it starts with `go`
(`goReads`, `goWrites`, `goCopy`). -/
structure AcceptEnv where
  connID : String
  now : Nat
  reads : List ReadOutcome
  writes : List WriteOutcome
  copy : CopyOutcome
  goReads : List ReadOutcome
  goWrites : List WriteOutcome
  goCopy : CopyOutcome

/-- The method `Proxy.getTelegramConn`. -/
def getTelegramConn {σ : Type} (p : Proxy σ) (opts : Option ConnectionOpts) (connID : String) :
    List Event × GoExit (Except Error Wrap) :=
  match p.tg.Dial connID opts with
  | .panicked msg => ([.dial], .panicked msg)
  | .returned (.error err) =>
    ([.dial], .returned (.error (.annotate err "Cannot dial to Telegram")))
  | .returned (.ok streamConn) =>
    match p.tg.Init opts streamConn with
    | .panicked msg => ([.dial, .init], .panicked msg)
    | .returned (.error err) =>
      ([.dial, .init], .returned (.error (.annotate err "Cannot handshake telegram")))
    | .returned (.ok packetConn) => ([.dial, .init], .returned (.ok packetConn))

/-- The run of the pipe started with `go`, in a goroutine of its own: its
steps and how it ends.  No deferred function of that goroutine calls
`recover`. -/
structure Spawned where
  trace : List PipeEvent
  exit : Exit
  deriving DecidableEq, Repr

/-- The body of `accept` up to the point where it returns, panics or blocks:
`trace` are its steps, `deferred` the calls registered with `defer` after the
first one, in registration order, and `spawned` the run of the pipe goroutine
it started, if it started one. -/
structure Body (σ : Type) where
  trace : List Event
  deferred : List Event
  exit : Exit
  world : InitWorld σ
  spawned : Option Spawned

structure RelayRun where
  trace : List Event
  exit : Exit
  spawned : Option Spawned

/-- The relay part of `accept` (from `wait.Add(2)` on).  The pipe started
with `go` runs next to the one `accept` runs itself; its deferred
`wait.Done()` is called when it returns or panics, so `wait.Wait()` comes
back unless that pipe stays blocked. -/
def relay {σ : Type} (p : Proxy σ) (env : AcceptEnv) (clientConn serverConn : Wrap)
    (opts : Option ConnectionOpts) : RelayRun :=
  let t := [Event.goWatcher, .waitAdd 2]
  if p.conf.UseMiddleProxy then
    if !clientConn.isPacket then
      ⟨t, .panicked "interface conversion: not a wrappers.PacketReadWriteCloser", none⟩
    else if !serverConn.isPacket then
      ⟨t, .panicked "interface conversion: not a wrappers.PacketReadWriteCloser", none⟩
    else
      match opts with
      | none => ⟨t, .panicked "invalid memory address or nil pointer dereference", none⟩
      | some opts =>
        let goRun := middlePipe env.goReads env.goWrites (HacksRef.ReadHacks.load opts)
        let spawned : Spawned := ⟨goRun.trace, goRun.exit⟩
        let t1 := t ++ [.go (.middle .client .server .ReadHacks),
          .call (.middle .server .client .WriteHacks)]
        let run := middlePipe env.reads env.writes (HacksRef.WriteHacks.load opts)
        let t2 := t1 ++ run.trace.map .pipe
        match run.exit with
        | .panicked msg => ⟨t2, .panicked msg, some spawned⟩
        | .blocked => ⟨t2, .blocked, some spawned⟩
        | .returned =>
          if spawned.exit = .blocked then ⟨t2 ++ [.waitWait], .blocked, some spawned⟩
          else ⟨t2 ++ [.waitWait, .log .info "Client disconnected"], .returned, some spawned⟩
  else
    if !clientConn.isStream then
      ⟨t, .panicked "interface conversion: not a wrappers.StreamReadWriteCloser", none⟩
    else if !serverConn.isStream then
      ⟨t, .panicked "interface conversion: not a wrappers.StreamReadWriteCloser", none⟩
    else
      let goRun := directPipe env.goCopy p.conf.ReadBufferSize
      let spawned : Spawned := ⟨goRun.1, goRun.2⟩
      let t1 := t ++ [.go (.direct .client .server p.conf.ReadBufferSize),
        .call (.direct .server .client p.conf.WriteBufferSize)]
      let run := directPipe env.copy p.conf.WriteBufferSize
      let t2 := t1 ++ run.1.map .pipe
      match run.2 with
      | .panicked msg => ⟨t2, .panicked msg, some spawned⟩
      | .blocked => ⟨t2, .blocked, some spawned⟩
      | .returned =>
        if spawned.exit = .blocked then ⟨t2 ++ [.waitWait], .blocked, some spawned⟩
        else ⟨t2 ++ [.waitWait, .log .info "Client disconnected"], .returned, some spawned⟩

def acceptBody {σ : Type} (p : Proxy σ) (env : AcceptEnv) (w : InitWorld σ) : Body σ :=
  let t0 := [Event.log .info "Client connected", .secrets]
  match p.secrets with
  | .panicked msg => ⟨t0, [], .panicked msg, w, none⟩
  | .returned (secrets, serr) =>
    let t1 := if serr.isSome then t0 ++ [.log .error "Failed to get secrets"] else t0
    let t2 := t1 ++ [.clientInit]
    match p.clientInit p.antiReplayCache env.now env.connID p.conf secrets w with
    | (.panicked msg, w1) => ⟨t2, [], .panicked msg, w1, none⟩
    | (.returned ⟨_, _, some _⟩, w1) =>
      ⟨t2 ++ [.log .error "Cannot initialize client connection"], [], .returned, w1, none⟩
    | (.returned ⟨none, _, none⟩, w1) =>
      ⟨t2, [], .panicked "interface conversion: interface is nil, not io.Closer", w1, none⟩
    | (.returned ⟨some clientConn, opts, none⟩, w1) =>
      let d1 := [Event.closeClient]
      let policy : GoExit Bool :=
        if p.conf.SecureOnly then
          match opts with
          | none => .panicked "invalid memory address or nil pointer dereference"
          | some o => .returned (o.ConnectionType != .Secure)
        else .returned false
      match policy with
      | .panicked msg => ⟨t2, d1, .panicked msg, w1, none⟩
      | .returned true =>
        ⟨t2 ++ [.log .error "Proxy supports only secure connections"], d1, .returned, w1, none⟩
      | .returned false =>
        match getTelegramConn p opts env.connID with
        | (t, .panicked msg) => ⟨t2 ++ t, d1, .panicked msg, w1, none⟩
        | (t, .returned (.error _)) =>
          ⟨t2 ++ t ++ [.log .error "Cannot initialize server connection"], d1, .returned, w1,
            none⟩
        | (t, .returned (.ok serverConn)) =>
          let d2 := d1 ++ [Event.closeServer]
          let r := relay p env clientConn serverConn opts
          ⟨t2 ++ t ++ r.trace, d2, r.exit, w1, r.spawned⟩

/-- The builtin `recover` called in a deferred function: it returns the
panic value, if the goroutine is panicking, and stops the panic. -/
def recover : Exit → Option String × Exit
  | .panicked msg => (some msg, .returned)
  | e => (none, e)

/-- A run of `accept`: the steps of its own goroutine (`trace`), how that
goroutine leaves `accept` (`exit`), and the run of the pipe goroutine it
started, if any (`spawned`).  When the pipe goroutine panics the program
terminates; `trace` then lists the steps the goroutine of `accept` takes if
it is scheduled before that. -/
structure AcceptRun (σ : Type) where
  trace : List Event
  exit : Exit
  world : InitWorld σ
  spawned : Option Spawned

/-- The method `Proxy.accept` from its second statement on, for the
connection id `env.connID` its first statement produced (that statement is
in `goAccept`): the body, then (unless the body is blocked for ever) the
deferred calls, last registered first; the function deferred first cancels
the context, closes the accepted socket and calls `recover`, and does nothing
with the recovered value. -/
def accept {σ : Type} (p : Proxy σ) (env : AcceptEnv) (w : InitWorld σ) : AcceptRun σ :=
  let b := acceptBody p env w
  match b.exit with
  | .blocked => ⟨b.trace, .blocked, b.world, b.spawned⟩
  | e =>
    let r := recover e
    ⟨b.trace ++ b.deferred.reverse ++ [.cancel, .closeConn, .recover r.1], r.2, b.world,
      b.spawned⟩

/-- The text of an error value, as its method `Error()` renders it. -/
def Error.text : Error → String
  | .new msg => msg
  | .annotate cause msg => msg ++ ": " ++ cause.text

/-- The statement `go p.accept(conn)` of `Serve`: the whole of a call of
`accept` in a goroutine of its own.  The first statement of `accept`,
`uuid.Must(uuid.NewV4())`, panics when `uuid.NewV4` returns the error
`uuidErr`, before any handler is deferred; otherwise the id is `env.connID`
and the rest of the method follows. -/
def goAccept {σ : Type} (p : Proxy σ) (uuidErr : Option Error) (env : AcceptEnv)
    (w : InitWorld σ) : AcceptRun σ :=
  match uuidErr with
  | some err => ⟨[], .panicked err.text, w, none⟩
  | none => accept p env w

/-- The panic value with which the program terminates during the run, if it
does: a panic that leaves `accept`, or a panic in the pipe goroutine; either
one reaches the top of its goroutine unrecovered. -/
def AcceptRun.crash {σ : Type} (r : AcceptRun σ) : Option String :=
  match r.exit with
  | .panicked msg => some msg
  | _ =>
    match r.spawned with
    | some ⟨_, .panicked msg⟩ => some msg
    | _ => none

/-- The function `NewProxy`: the mode of the configuration selects the
client initialiser.  The cache, the upstream connector and the secrets
provider are built by packages outside the source files and are passed
in. -/
def NewProxy {σ : Type} (parse : FrameParser) (cache : Cache σ) (tg : Telegram)
    (secrets : GoExit (List Secret × Option Error)) (conf : Config) : Proxy σ :=
  { antiReplayCache := cache
    conf := conf
    clientInit := if conf.UseMiddleProxy then MiddleInit parse else DirectInit parse
    tg := tg
    secrets := secrets }

/-! ## Two connections observing the same frame

The two cache calls of `DirectInit` (`Has`, then `Add`) as single steps of a
connection, so that the calls of two connections can be interleaved. -/

/-- Where a connection stands in the anti-replay part of `DirectInit`:
before `Has`, between a negative `Has` and `Add`, or finished (treated as
fresh, or rejected as a replay). -/
inductive Observe where
  | start
  | adding
  | fresh
  | replay
  deriving DecidableEq, Repr

/-- The next cache call of a connection. -/
def observeStep {σ : Type} (C : Cache σ) (F : Frame) (c : σ) : Observe → σ × Observe
  | .start => if C.Has c F then (c, .replay) else (c, .adding)
  | .adding => (C.Add c F, .fresh)
  | .fresh => (c, .fresh)
  | .replay => (c, .replay)

/-- The shared cache and the positions of two connections. -/
structure Race (σ : Type) where
  cache : σ
  first : Observe
  second : Observe

/-- One scheduling step: the chosen connection (`false` the first, `true`
the second) performs its next cache call. -/
def raceStep {σ : Type} (C : Cache σ) (F : Frame) (r : Race σ) (who : Bool) : Race σ :=
  if who then
    let x := observeStep C F r.cache r.second
    { cache := x.1, first := r.first, second := x.2 }
  else
    let x := observeStep C F r.cache r.first
    { cache := x.1, first := x.2, second := r.second }

/-- Run a schedule from the state in which both connections are about to
call `Has`. -/
def race {σ : Type} (C : Cache σ) (F : Frame) (c : σ) (schedule : List Bool) : Race σ :=
  schedule.foldl (raceStep C F) { cache := c, first := .start, second := .start }

/-- A state in which the cache holds the frame and nobody is between `Has`
and `Add`, and not both connections are fresh. -/
def Race.settled {σ : Type} (C : Cache σ) (F : Frame) (r : Race σ) : Prop :=
  C.Has r.cache F = true ∧ r.first ≠ .adding ∧ r.second ≠ .adding ∧
    ¬ (r.first = .fresh ∧ r.second = .fresh)

/-- Both connections are past a negative `Has`. -/
def Race.committed {σ : Type} (r : Race σ) : Prop :=
  (r.first = .adding ∨ r.first = .fresh) ∧ (r.second = .adding ∨ r.second = .fresh)

/-! ## Sample inputs -/

/-- A sample codec: a frame is accepted when some registered secret starts
with the frame's first byte; its second byte selects the connection type. -/
def sampleParser : FrameParser := fun secrets frame =>
  if secrets.any (fun s => s.head? == frame.head?) then
    .ok (⟨frame.take 32, frame.drop 32⟩,
      { DC := 2
        ConnectionType :=
          match frame.getD 1 0 with
          | 0 => .Abridged
          | 1 => .Intermediate
          | 2 => .Secure
          | _ => .Unknown
        ConnectionProto := .Any
        ReadHacks := ⟨false, false⟩
        WriteHacks := ⟨false, false⟩
        ClientAddr := none })
  else .error (.new "Unknown protocol")

/-- A sample frame: first byte `b0`, second byte `b1`, then 62 zero
bytes. -/
def sampleFrame (b0 b1 : Byte) : Frame :=
  b0 :: b1 :: List.replicate 62 0

/-- A sample accepted TCP socket with default options (no-delay on), whose
peer sends `incoming`. -/
def sampleSocket (incoming : List Byte) : Socket where
  isTCPConn := true
  localAddr := ⟨[10, 0, 0, 1], 3128⟩
  remoteAddr := ⟨[192, 0, 2, 7], 50000⟩
  noDelay := true
  readBuffer := 0
  writeBuffer := 0
  readDeadline := none
  incoming := incoming
  setNoDelayErr := none
  setReadBufferErr := none
  setWriteBufferErr := none
  calls := []

/-- The default buffer sizes of the flags `write-buffer` and `read-buffer`. -/
def sampleConfig (secureOnly : Bool) (adTag : List Byte) : Config where
  ReadBufferSize := 131072
  WriteBufferSize := 65536
  SecureOnly := secureOnly
  PublicIPv4 := []
  PublicIPv6 := []
  AdTag := adTag

def sampleWorld (incoming : List Byte) (cache : List Frame) : InitWorld (List Frame) where
  socket := sampleSocket incoming
  cache := cache
  cacheOps := []
  log := []

/-! ## Predicates used in the statements -/

/-- The socket is a TCP connection on which the three option calls succeed
and whose peer delivers the 64-byte frame `F` first. -/
def Socket.delivers (s : Socket) (F : Frame) : Prop :=
  s.isTCPConn = true ∧ s.setNoDelayErr = none ∧ s.setReadBufferErr = none ∧
    s.setWriteBufferErr = none ∧ FrameLen ≤ s.incoming.length ∧ s.incoming.take FrameLen = F

instance (s : Socket) (F : Frame) : Decidable (s.delivers F) := by
  unfold Socket.delivers; infer_instance

/-- The error with which `DirectInit` rejects a replayed frame. -/
def replayError : Error := .new "Replay attack is detected"

/-- Whether an initialiser returned with a non-nil error. -/
def InitFailed : GoExit InitReturn → Bool
  | .returned r => r.err.isSome
  | .panicked _ => false

/-- Whether an initialiser returned with a nil error. -/
def InitSucceeded : GoExit InitReturn → Bool
  | .returned r => r.err.isNone
  | .panicked _ => false

/-- The options returned by an initialiser, if it returned any. -/
def InitOpts : GoExit InitReturn → Option ConnectionOpts
  | .returned r => r.opts
  | .panicked _ => none

/-- The connection returned by an initialiser, if it returned one. -/
def InitConn : GoExit InitReturn → Option Wrap
  | .returned r => r.conn
  | .panicked _ => none

/-- Whether the codec rejects the frame. -/
def parseFails (parse : FrameParser) (secrets : List Secret) (F : Frame) : Bool :=
  match parse secrets F with
  | .error _ => true
  | .ok _ => false

/-! ## Reading traces -/

/-- The flags seen at the calls of `src.Read`, in order. -/
def readFlags : List PipeEvent → List Hacks
  | [] => []
  | .readCall h :: t => h :: readFlags t
  | _ :: t => readFlags t

/-- The packets returned by successful calls of `src.Read`, in order. -/
def readPackets : List PipeEvent → List Packet
  | [] => []
  | .readReturn p :: t => p :: readPackets t
  | _ :: t => readPackets t

/-- The packets passed to `dst.Write`, in order. -/
def writtenPackets : List PipeEvent → List Packet
  | [] => []
  | .writeCall p :: t => p :: writtenPackets t
  | _ :: t => writtenPackets t

/-- A call of `src.Read` or `dst.Write`. -/
def PipeEvent.isCall : PipeEvent → Bool
  | .readCall _ => true
  | .writeCall _ => true
  | _ => false

/-- A read or write that returned an error. -/
def PipeEvent.isError : PipeEvent → Bool
  | .readError _ => true
  | .writeError _ => true
  | _ => false

/-- The calls of `src.Read` and `dst.Write` issued after the first error. -/
def callsAfterError (trace : List PipeEvent) : List PipeEvent :=
  (trace.dropWhile (fun e => !e.isError)).filter PipeEvent.isCall

/-- How often `wait.Done()` is called. -/
def doneCount (trace : List PipeEvent) : Nat :=
  trace.count .done

/-- The packets returned by the successful reads that precede the first
read that does not return a packet. -/
def packetsBeforeReadFailure : List ReadOutcome → List Packet
  | .packet p _ :: t => p :: packetsBeforeReadFailure t
  | _ => []

/-- The number of successful writes that precede the first write that does
not succeed. -/
def writesBeforeFailure : List WriteOutcome → Nat
  | .written _ :: t => writesBeforeFailure t + 1
  | _ => 0

/-- The relay of one direction in the words of the specification: the
packets handed to the destination are the packets the source returned, in
order, up to the first read error, and up to and including the packet whose
write is the first not to succeed. -/
def relayedSpec (reads : List ReadOutcome) (writes : List WriteOutcome) : List Packet :=
  (packetsBeforeReadFailure reads).take (writesBeforeFailure writes + 1)

/-- Whether an outcome other than a success occurs early enough in the
scripts to be met by the pipe: reads and writes alternate, so the `i`-th
write is only reached after `i + 1` successful reads. -/
def meetsFailure : List ReadOutcome → List WriteOutcome → Bool
  | [], _ => false
  | .packet _ _ :: _, [] => false
  | .packet _ _ :: reads, .written _ :: writes => meetsFailure reads writes
  | _, _ => true

/-- The pipes `accept` starts, in order: `true` marks the one started with
`go`, `false` the one it runs itself. -/
def pipesStarted : List Event → List (Bool × PipeCall)
  | [] => []
  | .go c :: t => (true, c) :: pipesStarted t
  | .call c :: t => (false, c) :: pipesStarted t
  | _ :: t => pipesStarted t

/-- The log entries of a trace, in order. -/
def logged : List Event → List LogEntry
  | [] => []
  | .log l m :: t => ⟨l, m⟩ :: logged t
  | _ :: t => logged t

/-- A sample upstream: dialling succeeds; in middle mode the upstream
handshake returns a packet connection, in direct mode the stream itself. -/
def sampleTelegram (middle : Bool) : Telegram where
  Dial := fun connID _ => .returned (.ok (.conn (sampleSocket []) connID .Telegram [] []))
  Init := fun _ streamConn =>
    .returned (.ok (if middle then .mtprotoIntermediate streamConn else streamConn))

/-- A sample proxy built by `NewProxy` over the sample codec, a
never-evicting cache and one registered secret. -/
def sampleProxy (conf : Config) : Proxy (List Frame) :=
  NewProxy sampleParser setCache (sampleTelegram conf.UseMiddleProxy)
    (.returned ([[7]], none)) conf

/-- Sample surroundings of `accept`: the pipe run by `accept` relays one
packet and then meets end of stream, and the other pipe meets end of stream
at once. -/
def sampleEnv : AcceptEnv where
  connID := "c1"
  now := 5
  reads := [.packet [1, 2, 3, 4] ⟨true, false⟩, .error (.new "EOF") ⟨false, false⟩]
  writes := [.written ⟨true, false⟩]
  copy := .finished none
  goReads := [.error (.new "EOF") ⟨false, false⟩]
  goWrites := []
  goCopy := .finished none

/-! # Theorems -/

/-! ## DirectInit and the anti-replay cache -/

theorem DirectInit_replay {σ : Type} (parse : FrameParser) (C : Cache σ) (now : Nat)
    (connID : String) (conf : Config) (secrets : List Secret) (w : InitWorld σ) (F : Frame)
    (o : Obfuscated2 × ConnectionOpts)
    (hF : w.socket.delivers F) (hparse : parse secrets F = .ok o)
    (hhas : C.Has w.cache F = true) :
    (DirectInit parse C now connID conf secrets w).1 = .returned ⟨none, none, some replayError⟩ ∧
    (DirectInit parse C now connID conf secrets w).2.cache = w.cache ∧
    (DirectInit parse C now connID conf secrets w).2.cacheOps = w.cacheOps ++ [.has F true] := by
  obtain ⟨h1, h2, h3, h4, h5, h6⟩ := hF
  simp [DirectInit, Socket.SetNoDelay, Socket.SetReadBuffer, Socket.SetWriteBuffer,
    Socket.SetReadDeadline, ExtractFrame, h1, h2, h3, h4, h5, h6, hparse, hhas, replayError]

theorem DirectInit_fresh {σ : Type} (parse : FrameParser) (C : Cache σ) (now : Nat)
    (connID : String) (conf : Config) (secrets : List Secret) (w : InitWorld σ) (F : Frame)
    (o : Obfuscated2 × ConnectionOpts)
    (hF : w.socket.delivers F) (hparse : parse secrets F = .ok o)
    (hhas : C.Has w.cache F = false) :
    (∃ conn, (DirectInit parse C now connID conf secrets w).1 =
      .returned ⟨some conn, some { o.2 with ConnectionProto := .Any,
                                            ClientAddr := some w.socket.remoteAddr }, none⟩) ∧
    (DirectInit parse C now connID conf secrets w).2.cache = C.Add w.cache F ∧
    (DirectInit parse C now connID conf secrets w).2.cacheOps =
      w.cacheOps ++ [.has F false, .add F] := by
  obtain ⟨h1, h2, h3, h4, h5, h6⟩ := hF
  simp [DirectInit, Socket.SetNoDelay, Socket.SetReadBuffer, Socket.SetWriteBuffer,
    Socket.SetReadDeadline, ExtractFrame, h1, h2, h3, h4, h5, h6, hparse, hhas,
    Wrap.RemoteAddr, Wrap.socket]

theorem DirectInit_failed_iff {σ : Type} (parse : FrameParser) (C : Cache σ) (now : Nat)
    (connID : String) (conf : Config) (secrets : List Secret) (w : InitWorld σ)
    (htcp : w.socket.isTCPConn = true) :
    InitFailed (DirectInit parse C now connID conf secrets w).1 = true ↔
      (w.socket.setNoDelayErr ≠ none ∨ w.socket.setReadBufferErr ≠ none ∨
        w.socket.setWriteBufferErr ≠ none ∨ w.socket.incoming.length < FrameLen ∨
        parseFails parse secrets (w.socket.incoming.take FrameLen) = true ∨
        C.Has w.cache (w.socket.incoming.take FrameLen) = true) := by
  unfold DirectInit parseFails
  rcases h1 : w.socket.setNoDelayErr with _ | e1
  · rcases h2 : w.socket.setReadBufferErr with _ | e2
    · rcases h3 : w.socket.setWriteBufferErr with _ | e3
      · by_cases h4 : FrameLen ≤ w.socket.incoming.length
        · rcases h5 : parse secrets (w.socket.incoming.take FrameLen) with e5 | o
          · simp [Socket.SetNoDelay, Socket.SetReadBuffer, Socket.SetWriteBuffer,
              Socket.SetReadDeadline, ExtractFrame, InitFailed, htcp, h1, h2, h3, h4, h5]
          · by_cases h6 : C.Has w.cache (w.socket.incoming.take FrameLen) = true
            · simp [Socket.SetNoDelay, Socket.SetReadBuffer, Socket.SetWriteBuffer,
                Socket.SetReadDeadline, ExtractFrame, InitFailed, htcp, h1, h2, h3, h4, h5, h6]
            · simp [Socket.SetNoDelay, Socket.SetReadBuffer, Socket.SetWriteBuffer,
                Socket.SetReadDeadline, ExtractFrame, InitFailed, htcp, h1, h2, h3, h4, h5, h6]
        · simp [Socket.SetNoDelay, Socket.SetReadBuffer, Socket.SetWriteBuffer,
            Socket.SetReadDeadline, ExtractFrame, InitFailed, htcp, h1, h2, h3, h4]
          omega
      · simp [Socket.SetNoDelay, Socket.SetReadBuffer, Socket.SetWriteBuffer,
          InitFailed, htcp, h1, h2, h3]
    · simp [Socket.SetNoDelay, Socket.SetReadBuffer, InitFailed, htcp, h1, h2]
  · simp [Socket.SetNoDelay, InitFailed, htcp, h1]

theorem DirectInit_failed_unchanged {σ : Type} (parse : FrameParser) (C : Cache σ) (now : Nat)
    (connID : String) (conf : Config) (secrets : List Secret) (w : InitWorld σ)
    (hfail : InitFailed (DirectInit parse C now connID conf secrets w).1 = true) :
    InitConn (DirectInit parse C now connID conf secrets w).1 = none ∧
    InitOpts (DirectInit parse C now connID conf secrets w).1 = none ∧
    (DirectInit parse C now connID conf secrets w).2.cache = w.cache ∧
    ∃ ops, (DirectInit parse C now connID conf secrets w).2.cacheOps = w.cacheOps ++ ops ∧
      ∀ op ∈ ops, op.isAdd = false := by
  revert hfail
  unfold DirectInit
  by_cases htcp : w.socket.isTCPConn = true
  · rcases h1 : w.socket.setNoDelayErr with _ | e1
    · rcases h2 : w.socket.setReadBufferErr with _ | e2
      · rcases h3 : w.socket.setWriteBufferErr with _ | e3
        · by_cases h4 : FrameLen ≤ w.socket.incoming.length
          · rcases h5 : parse secrets (w.socket.incoming.take FrameLen) with e5 | o
            · simp [Socket.SetNoDelay, Socket.SetReadBuffer, Socket.SetWriteBuffer,
                Socket.SetReadDeadline, ExtractFrame, InitFailed, InitConn, InitOpts,
                htcp, h1, h2, h3, h4, h5]
            · by_cases h6 : C.Has w.cache (w.socket.incoming.take FrameLen) = true
              · simp [Socket.SetNoDelay, Socket.SetReadBuffer, Socket.SetWriteBuffer,
                  Socket.SetReadDeadline, ExtractFrame, InitFailed, InitConn, InitOpts,
                  htcp, h1, h2, h3, h4, h5, h6, CacheOp.isAdd]
              · simp [Socket.SetNoDelay, Socket.SetReadBuffer, Socket.SetWriteBuffer,
                  Socket.SetReadDeadline, ExtractFrame, InitFailed, htcp, h1, h2, h3, h4, h5, h6]
          · simp [Socket.SetNoDelay, Socket.SetReadBuffer, Socket.SetWriteBuffer,
              Socket.SetReadDeadline, ExtractFrame, InitFailed, InitConn, InitOpts,
              htcp, h1, h2, h3, h4]
        · simp [Socket.SetNoDelay, Socket.SetReadBuffer, Socket.SetWriteBuffer,
            InitFailed, InitConn, InitOpts, htcp, h1, h2, h3]
      · simp [Socket.SetNoDelay, Socket.SetReadBuffer, InitFailed, InitConn, InitOpts,
          htcp, h1, h2]
    · simp [Socket.SetNoDelay, InitFailed, InitConn, InitOpts, htcp, h1]
  · simp [InitFailed, htcp]

theorem DirectInit_succeeded_inv {σ : Type} (parse : FrameParser) (C : Cache σ) (now : Nat)
    (connID : String) (conf : Config) (secrets : List Secret) (w : InitWorld σ)
    (hok : InitSucceeded (DirectInit parse C now connID conf secrets w).1 = true) :
    ∃ o conn, w.socket.delivers (w.socket.incoming.take FrameLen) ∧
      parse secrets (w.socket.incoming.take FrameLen) = .ok o ∧
      C.Has w.cache (w.socket.incoming.take FrameLen) = false ∧
      conn.isStream = true ∧
      (DirectInit parse C now connID conf secrets w).1 =
        .returned ⟨some conn, some { o.2 with ConnectionProto := .Any,
                                              ClientAddr := some w.socket.remoteAddr }, none⟩ ∧
      (DirectInit parse C now connID conf secrets w).2.socket.localAddr = w.socket.localAddr ∧
      (DirectInit parse C now connID conf secrets w).2.socket.noDelay = false := by
  revert hok
  unfold DirectInit Socket.delivers
  by_cases htcp : w.socket.isTCPConn = true
  · rcases h1 : w.socket.setNoDelayErr with _ | e1
    · rcases h2 : w.socket.setReadBufferErr with _ | e2
      · rcases h3 : w.socket.setWriteBufferErr with _ | e3
        · by_cases h4 : FrameLen ≤ w.socket.incoming.length
          · rcases h5 : parse secrets (w.socket.incoming.take FrameLen) with e5 | o
            · simp [Socket.SetNoDelay, Socket.SetReadBuffer, Socket.SetWriteBuffer,
                Socket.SetReadDeadline, ExtractFrame, InitSucceeded, htcp, h1, h2, h3, h4, h5]
            · by_cases h6 : C.Has w.cache (w.socket.incoming.take FrameLen) = true
              · simp [Socket.SetNoDelay, Socket.SetReadBuffer, Socket.SetWriteBuffer,
                  Socket.SetReadDeadline, ExtractFrame, InitSucceeded,
                  htcp, h1, h2, h3, h4, h5, h6]
              · simp [Socket.SetNoDelay, Socket.SetReadBuffer, Socket.SetWriteBuffer,
                  Socket.SetReadDeadline, ExtractFrame, InitSucceeded, Wrap.isStream,
                  Wrap.RemoteAddr, Wrap.socket, htcp, h1, h2, h3, h4, h5, h6]
          · simp [Socket.SetNoDelay, Socket.SetReadBuffer, Socket.SetWriteBuffer,
              Socket.SetReadDeadline, ExtractFrame, InitSucceeded, htcp, h1, h2, h3, h4]
        · simp [Socket.SetNoDelay, Socket.SetReadBuffer, Socket.SetWriteBuffer,
            InitSucceeded, htcp, h1, h2, h3]
      · simp [Socket.SetNoDelay, Socket.SetReadBuffer, InitSucceeded, htcp, h1, h2]
    · simp [Socket.SetNoDelay, InitSucceeded, htcp, h1]
  · simp [InitSucceeded, htcp]

/-- The calls `DirectInit` makes on a TCP socket begin with `SetNoDelay(false)`. -/
theorem DirectInit_first_call {σ : Type} (parse : FrameParser) (C : Cache σ) (now : Nat)
    (connID : String) (conf : Config) (secrets : List Secret) (w : InitWorld σ)
    (htcp : w.socket.isTCPConn = true) :
    ∃ rest, (DirectInit parse C now connID conf secrets w).2.socket.calls =
      w.socket.calls ++ SocketCall.setNoDelay false :: rest := by
  unfold DirectInit
  rcases h1 : w.socket.setNoDelayErr with _ | e1
  · rcases h2 : w.socket.setReadBufferErr with _ | e2
    · rcases h3 : w.socket.setWriteBufferErr with _ | e3
      · by_cases h4 : FrameLen ≤ w.socket.incoming.length
        · rcases h5 : parse secrets (w.socket.incoming.take FrameLen) with e5 | o
          · simp [Socket.SetNoDelay, Socket.SetReadBuffer, Socket.SetWriteBuffer,
              Socket.SetReadDeadline, ExtractFrame, htcp, h1, h2, h3, h4, h5]
          · by_cases h6 : C.Has w.cache (w.socket.incoming.take FrameLen) = true
            · simp [Socket.SetNoDelay, Socket.SetReadBuffer, Socket.SetWriteBuffer,
                Socket.SetReadDeadline, ExtractFrame, htcp, h1, h2, h3, h4, h5, h6]
            · simp [Socket.SetNoDelay, Socket.SetReadBuffer, Socket.SetWriteBuffer,
                Socket.SetReadDeadline, ExtractFrame, htcp, h1, h2, h3, h4, h5, h6]
        · simp [Socket.SetNoDelay, Socket.SetReadBuffer, Socket.SetWriteBuffer,
            Socket.SetReadDeadline, ExtractFrame, htcp, h1, h2, h3, h4]
      · simp [Socket.SetNoDelay, Socket.SetReadBuffer, Socket.SetWriteBuffer, htcp, h1, h2, h3]
    · simp [Socket.SetNoDelay, Socket.SetReadBuffer, htcp, h1, h2]
  · simp [Socket.SetNoDelay, htcp, h1]

/-- Once `SetNoDelay(false)` has succeeded the option stays off, however
`DirectInit` ends. -/
theorem DirectInit_noDelay_false {σ : Type} (parse : FrameParser) (C : Cache σ) (now : Nat)
    (connID : String) (conf : Config) (secrets : List Secret) (w : InitWorld σ)
    (htcp : w.socket.isTCPConn = true) (h1 : w.socket.setNoDelayErr = none) :
    (DirectInit parse C now connID conf secrets w).2.socket.noDelay = false := by
  unfold DirectInit
  rcases h2 : w.socket.setReadBufferErr with _ | e2
  · rcases h3 : w.socket.setWriteBufferErr with _ | e3
    · by_cases h4 : FrameLen ≤ w.socket.incoming.length
      · rcases h5 : parse secrets (w.socket.incoming.take FrameLen) with e5 | o
        · simp [Socket.SetNoDelay, Socket.SetReadBuffer, Socket.SetWriteBuffer,
            Socket.SetReadDeadline, ExtractFrame, htcp, h1, h2, h3, h4, h5]
        · by_cases h6 : C.Has w.cache (w.socket.incoming.take FrameLen) = true
          · simp [Socket.SetNoDelay, Socket.SetReadBuffer, Socket.SetWriteBuffer,
              Socket.SetReadDeadline, ExtractFrame, htcp, h1, h2, h3, h4, h5, h6]
          · simp [Socket.SetNoDelay, Socket.SetReadBuffer, Socket.SetWriteBuffer,
              Socket.SetReadDeadline, ExtractFrame, htcp, h1, h2, h3, h4, h5, h6]
      · simp [Socket.SetNoDelay, Socket.SetReadBuffer, Socket.SetWriteBuffer,
          Socket.SetReadDeadline, ExtractFrame, htcp, h1, h2, h3, h4]
    · simp [Socket.SetNoDelay, Socket.SetReadBuffer, Socket.SetWriteBuffer, htcp, h1, h2, h3]
  · simp [Socket.SetNoDelay, Socket.SetReadBuffer, htcp, h1, h2]

/-- When `SetNoDelay` fails, `DirectInit` returns the annotated error at
once: nothing is read from the socket and no other call is made on it. -/
theorem DirectInit_noDelay_error {σ : Type} (parse : FrameParser) (C : Cache σ) (now : Nat)
    (connID : String) (conf : Config) (secrets : List Secret) (w : InitWorld σ) (e : Error)
    (htcp : w.socket.isTCPConn = true) (h1 : w.socket.setNoDelayErr = some e) :
    (DirectInit parse C now connID conf secrets w).1 =
      .returned ⟨none, none, some (.annotate e "Cannot disable NO_DELAY to client socket")⟩ ∧
    (DirectInit parse C now connID conf secrets w).2.socket.incoming = w.socket.incoming ∧
    (DirectInit parse C now connID conf secrets w).2.socket.calls =
      w.socket.calls ++ [.setNoDelay false] ∧
    (DirectInit parse C now connID conf secrets w).2.socket.noDelay = w.socket.noDelay := by
  simp [DirectInit, Socket.SetNoDelay, htcp, h1]

theorem MiddleInit_succeeded_inv {σ : Type} (parse : FrameParser) (C : Cache σ) (now : Nat)
    (connID : String) (conf : Config) (secrets : List Secret) (w : InitWorld σ)
    (hok : InitSucceeded (MiddleInit parse C now connID conf secrets w).1 = true) :
    ∃ o conn, parse secrets (w.socket.incoming.take FrameLen) = .ok o ∧
      InitSucceeded (DirectInit parse C now connID conf secrets w).1 = true ∧
      o.2.ConnectionType ≠ .Unknown ∧
      conn.isPacket = true ∧
      (MiddleInit parse C now connID conf secrets w).1 =
        .returned ⟨some conn, some { o.2 with
            ConnectionProto :=
              if (IP.To4 w.socket.localAddr.IP).isNone then .IPv6 else .IPv4,
            ClientAddr := some w.socket.remoteAddr }, none⟩ ∧
      (MiddleInit parse C now connID conf secrets w).2 =
        (DirectInit parse C now connID conf secrets w).2 := by
  revert hok
  unfold MiddleInit
  rcases hd : DirectInit parse C now connID conf secrets w with ⟨r1, w1⟩
  by_cases hs : InitSucceeded r1 = true
  · have h := DirectInit_succeeded_inv parse C now connID conf secrets w (by rw [hd]; exact hs)
    obtain ⟨o, conn, -, hp, -, hst, hr, hl, -⟩ := h
    rw [hd] at hr hl
    simp only at hr hl
    subst hr
    intro hok
    refine ⟨o, ?_⟩
    rcases ht : o.2.ConnectionType <;>
      simp_all [InitSucceeded, Wrap.isPacket] <;> split <;> simp_all
  · rcases r1 with ⟨c, o, e⟩ | m
    · rcases e with _ | e
      · simp [InitSucceeded] at hs
      · simp [InitSucceeded]
    · simp [InitSucceeded]

/-! ## Claims about DirectInit and MiddleInit -/

/-- C1: for a frame `F` that is read successfully and that the codec accepts,
`DirectInit` returns the replay error iff `Has(F)` holds on the cache and
succeeds iff it does not; on success the cache afterwards is the result of
`Add(F)`; and for a cache that retains `F` on insertion, `F` is then present
and a second `DirectInit` reading the same frame on the resulting cache
returns the replay error. -/
theorem DirectInit_observe_contract {σ : Type} (parse : FrameParser) (C : Cache σ)
    (now now2 : Nat) (connID connID2 : String) (conf : Config) (secrets : List Secret)
    (w : InitWorld σ) (s2 : Socket) (F : Frame) (o : Obfuscated2 × ConnectionOpts)
    (hF : w.socket.delivers F) (hparse : parse secrets F = .ok o) (h2 : s2.delivers F) :
    ((DirectInit parse C now connID conf secrets w).1 =
        .returned ⟨none, none, some replayError⟩ ↔ C.Has w.cache F = true) ∧
    (InitSucceeded (DirectInit parse C now connID conf secrets w).1 = true ↔
        C.Has w.cache F = false) ∧
    (InitSucceeded (DirectInit parse C now connID conf secrets w).1 = true →
      (DirectInit parse C now connID conf secrets w).2.cache = C.Add w.cache F ∧
      (C.Has (C.Add w.cache F) F = true →
        C.Has (DirectInit parse C now connID conf secrets w).2.cache F = true ∧
        (DirectInit parse C now2 connID2 conf secrets
            { (DirectInit parse C now connID conf secrets w).2 with socket := s2 }).1 =
          .returned ⟨none, none, some replayError⟩)) := by
  rcases hhas : C.Has w.cache F with _ | _
  · obtain ⟨⟨conn, hr⟩, hc, -⟩ :=
      DirectInit_fresh parse C now connID conf secrets w F o hF hparse hhas
    refine ⟨?_, ?_, ?_⟩
    · simp [hr]
    · simp [hr, InitSucceeded]
    · intro _
      refine ⟨hc, fun hret => ⟨by rw [hc]; exact hret, ?_⟩⟩
      exact (DirectInit_replay parse C now2 connID2 conf secrets
        { (DirectInit parse C now connID conf secrets w).2 with socket := s2 } F o
        h2 hparse (by simp only [hc]; exact hret)).1
  · obtain ⟨hr, -, -⟩ := DirectInit_replay parse C now connID conf secrets w F o hF hparse hhas
    refine ⟨?_, ?_, ?_⟩
    · simp [hr]
    · simp [hr, InitSucceeded]
    · intro h
      simp [hr, InitSucceeded] at h

/-- C1 at a sample connection: an empty never-evicting cache, a frame the
sample codec accepts, and a second connection sending the same frame. -/
theorem DirectInit_observe_contract_witness :
    (sampleWorld (sampleFrame 7 1) []).socket.delivers (sampleFrame 7 1) ∧
    InitSucceeded (DirectInit sampleParser setCache 5 "a" (sampleConfig false []) [[7]]
      (sampleWorld (sampleFrame 7 1) [])).1 = true ∧
    (DirectInit sampleParser setCache 9 "b" (sampleConfig false []) [[7]]
      { (DirectInit sampleParser setCache 5 "a" (sampleConfig false []) [[7]]
          (sampleWorld (sampleFrame 7 1) [])).2 with
        socket := sampleSocket (sampleFrame 7 1) }).1 =
      .returned ⟨none, none, some replayError⟩ := by
  have h := DirectInit_observe_contract sampleParser setCache 5 9 "a" "b"
    (sampleConfig false []) [[7]] (sampleWorld (sampleFrame 7 1) [])
    (sampleSocket (sampleFrame 7 1)) (sampleFrame 7 1)
    (⟨[7, 1] ++ List.replicate 30 0, List.replicate 32 0⟩,
      { DC := 2, ConnectionType := .Intermediate, ConnectionProto := .Any,
        ReadHacks := ⟨false, false⟩, WriteHacks := ⟨false, false⟩, ClientAddr := none })
    (by decide) (by rfl) (by decide)
  have hs := h.2.1.2 (by decide)
  exact ⟨by decide, hs, ((h.2.2 hs).2 (by decide)).2⟩

/-- C2: whenever `DirectInit` returns an error it returns no connection and
no options, the cache is unchanged and `Add` was not called; and on a TCP
socket it returns an error exactly when a socket option call fails, the frame
cannot be read, the codec rejects the frame, or the cache already holds it. -/
theorem DirectInit_error_no_insertion {σ : Type} (parse : FrameParser) (C : Cache σ)
    (now : Nat) (connID : String) (conf : Config) (secrets : List Secret) (w : InitWorld σ) :
    (InitFailed (DirectInit parse C now connID conf secrets w).1 = true →
      InitConn (DirectInit parse C now connID conf secrets w).1 = none ∧
      InitOpts (DirectInit parse C now connID conf secrets w).1 = none ∧
      (DirectInit parse C now connID conf secrets w).2.cache = w.cache ∧
      ∃ ops, (DirectInit parse C now connID conf secrets w).2.cacheOps = w.cacheOps ++ ops ∧
        ∀ op ∈ ops, op.isAdd = false) ∧
    (w.socket.isTCPConn = true →
      (InitFailed (DirectInit parse C now connID conf secrets w).1 = true ↔
        (w.socket.setNoDelayErr ≠ none ∨ w.socket.setReadBufferErr ≠ none ∨
          w.socket.setWriteBufferErr ≠ none ∨ w.socket.incoming.length < FrameLen ∨
          parseFails parse secrets (w.socket.incoming.take FrameLen) = true ∨
          C.Has w.cache (w.socket.incoming.take FrameLen) = true))) :=
  ⟨DirectInit_failed_unchanged parse C now connID conf secrets w,
    DirectInit_failed_iff parse C now connID conf secrets w⟩

/-- C2 at two sample connections: a frame no registered secret validates,
and a frame already in the cache. -/
theorem DirectInit_error_no_insertion_witness :
    (InitFailed (DirectInit sampleParser setCache 5 "a" (sampleConfig false []) [[8]]
        (sampleWorld (sampleFrame 7 1) [])).1 = true ∧
      (DirectInit sampleParser setCache 5 "a" (sampleConfig false []) [[8]]
        (sampleWorld (sampleFrame 7 1) [])).2.cache = []) ∧
    (InitFailed (DirectInit sampleParser setCache 5 "a" (sampleConfig false []) [[7]]
        (sampleWorld (sampleFrame 7 1) [sampleFrame 7 1])).1 = true ∧
      (DirectInit sampleParser setCache 5 "a" (sampleConfig false []) [[7]]
        (sampleWorld (sampleFrame 7 1) [sampleFrame 7 1])).2.cache = [sampleFrame 7 1]) :=
  ⟨⟨by decide, ((DirectInit_error_no_insertion sampleParser setCache 5 "a"
      (sampleConfig false []) [[8]] (sampleWorld (sampleFrame 7 1) [])).1 (by decide)).2.2.1⟩,
   ⟨by decide, ((DirectInit_error_no_insertion sampleParser setCache 5 "a"
      (sampleConfig false []) [[7]]
      (sampleWorld (sampleFrame 7 1) [sampleFrame 7 1])).1 (by decide)).2.2.1⟩⟩

/-- C6: when `DirectInit` succeeds its options have `ConnectionProto = Any`;
when `MiddleInit` succeeds its options have `IPv4` if the local address of
the socket has a 4-byte form and `IPv6` otherwise, never `Any`; in both cases
the `ConnectionType` is the one the codec produced for the frame. -/
theorem Init_ConnectionProto {σ : Type} (parse : FrameParser) (C : Cache σ)
    (now : Nat) (connID : String) (conf : Config) (secrets : List Secret) (w : InitWorld σ) :
    (InitSucceeded (DirectInit parse C now connID conf secrets w).1 = true →
      ∃ opts o, InitOpts (DirectInit parse C now connID conf secrets w).1 = some opts ∧
        parse secrets (w.socket.incoming.take FrameLen) = .ok o ∧
        opts.ConnectionProto = .Any ∧ opts.ConnectionType = o.2.ConnectionType) ∧
    (InitSucceeded (MiddleInit parse C now connID conf secrets w).1 = true →
      ∃ opts o, InitOpts (MiddleInit parse C now connID conf secrets w).1 = some opts ∧
        parse secrets (w.socket.incoming.take FrameLen) = .ok o ∧
        opts.ConnectionProto ≠ .Any ∧
        ((IP.To4 w.socket.localAddr.IP).isSome = true → opts.ConnectionProto = .IPv4) ∧
        ((IP.To4 w.socket.localAddr.IP) = none → opts.ConnectionProto = .IPv6) ∧
        opts.ConnectionType = o.2.ConnectionType) := by
  constructor
  · intro hok
    obtain ⟨o, conn, -, hp, -, -, hr, -, -⟩ :=
      DirectInit_succeeded_inv parse C now connID conf secrets w hok
    exact ⟨{ o.2 with ConnectionProto := .Any, ClientAddr := some w.socket.remoteAddr }, o,
      by rw [hr]; rfl, hp, rfl, rfl⟩
  · intro hok
    obtain ⟨o, conn, hp, -, -, -, hr, -⟩ :=
      MiddleInit_succeeded_inv parse C now connID conf secrets w hok
    refine ⟨{ o.2 with
        ConnectionProto := if (IP.To4 w.socket.localAddr.IP).isNone then .IPv6 else .IPv4,
        ClientAddr := some w.socket.remoteAddr }, o, by rw [hr]; rfl, hp, ?_, ?_, ?_, rfl⟩
    · simp only
      split <;> simp
    · intro h4
      rcases h : IP.To4 w.socket.localAddr.IP with _ | ip
      · simp [h] at h4
      · simp
    · intro h4
      simp [h4]

/-- C6 at sample connections: direct mode, middle mode on an IPv4 listening
address, and middle mode on an IPv6 one. -/
theorem Init_ConnectionProto_witness :
    (∃ opts, InitOpts (DirectInit sampleParser setCache 5 "a" (sampleConfig false []) [[7]]
        (sampleWorld (sampleFrame 7 2) [])).1 = some opts ∧
      opts.ConnectionProto = .Any ∧ opts.ConnectionType = .Secure) ∧
    (∃ opts, InitOpts (MiddleInit sampleParser setCache 5 "a" (sampleConfig false [1]) [[7]]
        (sampleWorld (sampleFrame 7 2) [])).1 = some opts ∧
      opts.ConnectionProto = .IPv4 ∧ opts.ConnectionType = .Secure) := by
  have h := Init_ConnectionProto sampleParser setCache 5 "a" (sampleConfig false []) [[7]]
    (sampleWorld (sampleFrame 7 2) [])
  have h2 := Init_ConnectionProto sampleParser setCache 5 "a" (sampleConfig false [1]) [[7]]
    (sampleWorld (sampleFrame 7 2) [])
  obtain ⟨opts, o, ho, hp, hany, hty⟩ := h.1 (by decide)
  obtain ⟨opts2, o2, ho2, hp2, -, h4, -, hty2⟩ := h2.2 (by decide)
  have e1 : sampleParser [[7]] ((sampleWorld (sampleFrame 7 2) []).socket.incoming.take FrameLen)
      = .ok (⟨[7, 2] ++ List.replicate 30 0, List.replicate 32 0⟩,
        { DC := 2, ConnectionType := .Secure, ConnectionProto := .Any,
          ReadHacks := ⟨false, false⟩, WriteHacks := ⟨false, false⟩, ClientAddr := none }) := by
    rfl
  rw [e1] at hp hp2
  cases hp
  cases hp2
  exact ⟨⟨opts, ho, hany, hty⟩, ⟨opts2, ho2, h4 (by decide), hty2⟩⟩

/-- C7, as the code has it: the first call `DirectInit` makes on the client
socket is `SetNoDelay(false)`, before the frame is read; when that call
succeeds the no-delay option of the socket is off afterwards (Nagle's
algorithm stays in use), however `DirectInit` ends; when it fails,
`DirectInit` returns the annotated error without a connection and without
reading from the socket. -/
theorem DirectInit_turns_noDelay_off {σ : Type} (parse : FrameParser) (C : Cache σ)
    (now : Nat) (connID : String) (conf : Config) (secrets : List Secret) (w : InitWorld σ)
    (htcp : w.socket.isTCPConn = true) :
    (∃ rest, (DirectInit parse C now connID conf secrets w).2.socket.calls =
      w.socket.calls ++ SocketCall.setNoDelay false :: rest) ∧
    (w.socket.setNoDelayErr = none →
      (DirectInit parse C now connID conf secrets w).2.socket.noDelay = false) ∧
    (∀ e, w.socket.setNoDelayErr = some e →
      (DirectInit parse C now connID conf secrets w).1 =
        .returned ⟨none, none, some (.annotate e "Cannot disable NO_DELAY to client socket")⟩ ∧
      (DirectInit parse C now connID conf secrets w).2.socket.incoming = w.socket.incoming ∧
      (DirectInit parse C now connID conf secrets w).2.socket.calls =
        w.socket.calls ++ [.setNoDelay false]) :=
  ⟨DirectInit_first_call parse C now connID conf secrets w htcp,
    DirectInit_noDelay_false parse C now connID conf secrets w htcp,
    fun e he =>
      let h := DirectInit_noDelay_error parse C now connID conf secrets w e htcp he
      ⟨h.1, h.2.1, h.2.2.1⟩⟩

/-- C7 at a sample connection whose socket starts with no-delay on. -/
theorem DirectInit_turns_noDelay_off_witness :
    (sampleWorld (sampleFrame 7 1) []).socket.isTCPConn = true ∧
    (sampleWorld (sampleFrame 7 1) []).socket.noDelay = true ∧
    (DirectInit sampleParser setCache 5 "a" (sampleConfig false []) [[7]]
      (sampleWorld (sampleFrame 7 1) [])).2.socket.noDelay = false :=
  ⟨by decide, by decide,
    (DirectInit_turns_noDelay_off sampleParser setCache 5 "a" (sampleConfig false []) [[7]]
      (sampleWorld (sampleFrame 7 1) []) (by decide)).2.1 (by decide)⟩

/-- C7 as stated fails: on a socket that starts with no-delay on, a
successful `DirectInit` leaves the no-delay option off, with `SetNoDelay(false)`
made before the read. -/
theorem DirectInit_noDelay_on_counterexample :
    InitSucceeded (DirectInit sampleParser setCache 5 "a" (sampleConfig false []) [[7]]
      (sampleWorld (sampleFrame 7 1) [])).1 = true ∧
    (sampleWorld (sampleFrame 7 1) []).socket.noDelay = true ∧
    ¬ (DirectInit sampleParser setCache 5 "a" (sampleConfig false []) [[7]]
      (sampleWorld (sampleFrame 7 1) [])).2.socket.noDelay = true ∧
    (DirectInit sampleParser setCache 5 "a" (sampleConfig false []) [[7]]
      (sampleWorld (sampleFrame 7 1) [])).2.socket.calls =
      [.setNoDelay false, .setReadBuffer 131072, .setWriteBuffer 65536,
        .setReadDeadline (some 10000000005), .read 64, .setReadDeadline none] := by
  decide

end Mtg

namespace Mtg

/-! ## The relay pipe -/

theorem middlePipe_readFlags (reads : List ReadOutcome) (writes : List WriteOutcome)
    (hacks : Hacks) :
    ∀ h ∈ readFlags (middlePipe reads writes hacks).trace,
      h.SimpleAck = false ∧ h.QuickAck = false := by
  induction reads, writes, hacks using middlePipe.induct <;>
    simp_all [middlePipe, readFlags]

theorem middlePipe_written_eq_read (reads : List ReadOutcome) (writes : List WriteOutcome)
    (hacks : Hacks) :
    writtenPackets (middlePipe reads writes hacks).trace =
      readPackets (middlePipe reads writes hacks).trace := by
  induction reads, writes, hacks using middlePipe.induct <;>
    simp_all [middlePipe, writtenPackets, readPackets]

theorem middlePipe_written_eq_spec (reads : List ReadOutcome) (writes : List WriteOutcome)
    (hacks : Hacks) :
    writtenPackets (middlePipe reads writes hacks).trace = relayedSpec reads writes := by
  induction reads, writes, hacks using middlePipe.induct <;>
    simp_all [middlePipe, writtenPackets, relayedSpec, packetsBeforeReadFailure,
      writesBeforeFailure]

theorem middlePipe_callsAfterError (reads : List ReadOutcome) (writes : List WriteOutcome)
    (hacks : Hacks) :
    callsAfterError (middlePipe reads writes hacks).trace = [] := by
  induction reads, writes, hacks using middlePipe.induct <;>
    simp_all [middlePipe, callsAfterError, PipeEvent.isError, PipeEvent.isCall,
      List.dropWhile_cons]

theorem middlePipe_doneCount (reads : List ReadOutcome) (writes : List WriteOutcome)
    (hacks : Hacks) :
    doneCount (middlePipe reads writes hacks).trace =
      if (middlePipe reads writes hacks).exit = .blocked then 0 else 1 := by
  induction reads, writes, hacks using middlePipe.induct <;>
    simp_all [middlePipe, doneCount]

theorem middlePipe_returned_iff (reads : List ReadOutcome) (writes : List WriteOutcome)
    (hacks : Hacks) :
    (middlePipe reads writes hacks).exit = .returned ↔
      (middlePipe reads writes hacks).trace.any PipeEvent.isError = true := by
  induction reads, writes, hacks using middlePipe.induct <;>
    simp_all [middlePipe, PipeEvent.isError]

theorem middlePipe_not_blocked_iff (reads : List ReadOutcome) (writes : List WriteOutcome)
    (hacks : Hacks) :
    (middlePipe reads writes hacks).exit ≠ .blocked ↔ meetsFailure reads writes = true := by
  induction reads, writes, hacks using middlePipe.induct <;>
    simp_all [middlePipe, meetsFailure]

theorem middlePipe_first_event (reads : List ReadOutcome) (writes : List WriteOutcome)
    (hacks : Hacks) :
    (middlePipe reads writes hacks).trace.head? = some (.readCall ⟨false, false⟩) := by
  induction reads, writes, hacks using middlePipe.induct <;>
    simp_all [middlePipe]

/-! ## The connection handler -/

theorem pipesStarted_append (a b : List Event) :
    pipesStarted (a ++ b) = pipesStarted a ++ pipesStarted b := by
  induction a with
  | nil => rfl
  | cons e t ih => cases e <;> simp [pipesStarted, ih]

theorem pipesStarted_map_pipe (l : List PipeEvent) :
    pipesStarted (l.map Event.pipe) = [] := by
  induction l with
  | nil => rfl
  | cons e t ih => simp [pipesStarted, ih]

theorem logged_append (a b : List Event) : logged (a ++ b) = logged a ++ logged b := by
  induction a with
  | nil => rfl
  | cons e t ih => cases e <;> simp [logged, ih]

theorem getTelegramConn_pipesStarted {σ : Type} (p : Proxy σ) (opts : Option ConnectionOpts)
    (connID : String) : pipesStarted (getTelegramConn p opts connID).1 = [] := by
  unfold getTelegramConn
  split <;> try rfl
  split <;> rfl

theorem relay_pipesStarted {σ : Type} (p : Proxy σ) (env : AcceptEnv)
    (clientConn serverConn : Wrap) (opts : Option ConnectionOpts) :
    pipesStarted (relay p env clientConn serverConn opts).1 = [] ∨
    (p.conf.UseMiddleProxy = true ∧
      pipesStarted (relay p env clientConn serverConn opts).1 =
        [(true, .middle .client .server .ReadHacks),
         (false, .middle .server .client .WriteHacks)]) ∨
    (p.conf.UseMiddleProxy = false ∧
      pipesStarted (relay p env clientConn serverConn opts).1 =
        [(true, .direct .client .server p.conf.ReadBufferSize),
         (false, .direct .server .client p.conf.WriteBufferSize)]) := by
  by_cases hm : p.conf.UseMiddleProxy = true
  · by_cases hc : clientConn.isPacket = true
    · by_cases hs : serverConn.isPacket = true
      · rcases opts with _ | opts
        · simp [relay, hm, hc, hs, pipesStarted]
        · rcases hx : (middlePipe env.reads env.writes (HacksRef.WriteHacks.load opts)).exit
            with _ | msg | _
          · by_cases hp : (middlePipe env.goReads env.goWrites
                (HacksRef.ReadHacks.load opts)).exit = .blocked <;>
              simp [relay, hm, hc, hs, hx, hp, pipesStarted_append, pipesStarted_map_pipe,
                pipesStarted]
          · simp [relay, hm, hc, hs, hx, pipesStarted_append, pipesStarted_map_pipe,
              pipesStarted]
          · simp [relay, hm, hc, hs, hx, pipesStarted_append, pipesStarted_map_pipe,
              pipesStarted]
      · simp [relay, hm, hc, hs, pipesStarted]
    · simp [relay, hm, hc, pipesStarted]
  · simp only [Bool.not_eq_true] at hm
    by_cases hc : clientConn.isStream = true
    · by_cases hs : serverConn.isStream = true
      · rcases hx : (directPipe env.copy p.conf.WriteBufferSize).2 with _ | msg | _
        · by_cases hp : (directPipe env.goCopy p.conf.ReadBufferSize).2 = .blocked <;>
            simp [relay, hm, hc, hs, hx, hp, pipesStarted_append, pipesStarted_map_pipe,
              pipesStarted]
        · simp [relay, hm, hc, hs, hx, pipesStarted_append, pipesStarted_map_pipe,
            pipesStarted]
        · simp [relay, hm, hc, hs, hx, pipesStarted_append, pipesStarted_map_pipe,
            pipesStarted]
      · simp [relay, hm, hc, hs, pipesStarted]
    · simp [relay, hm, hc, pipesStarted]

/-- The deferred calls registered by the body are the two closers, and the
pipes it starts are the two pipes of the configured mode. -/
theorem acceptBody_shape {σ : Type} (p : Proxy σ) (env : AcceptEnv) (w : InitWorld σ) :
    ((acceptBody p env w).deferred = [] ∨ (acceptBody p env w).deferred = [.closeClient] ∨
      (acceptBody p env w).deferred = [.closeClient, .closeServer]) ∧
    (pipesStarted (acceptBody p env w).trace = [] ∨
      (p.conf.UseMiddleProxy = true ∧
        pipesStarted (acceptBody p env w).trace =
          [(true, .middle .client .server .ReadHacks),
           (false, .middle .server .client .WriteHacks)]) ∨
      (p.conf.UseMiddleProxy = false ∧
        pipesStarted (acceptBody p env w).trace =
          [(true, .direct .client .server p.conf.ReadBufferSize),
           (false, .direct .server .client p.conf.WriteBufferSize)])) := by
  rcases hs : p.secrets with ⟨secrets, serr⟩ | msg
  · rcases hi : p.clientInit p.antiReplayCache env.now env.connID p.conf secrets w with ⟨r, w1⟩
    rcases r with ⟨conn, opts, err⟩ | msg
    · rcases err with _ | err
      · rcases conn with _ | conn
        · rcases serr with _ | serr <;> simp [acceptBody, hs, hi, pipesStarted]
        · have hg := getTelegramConn_pipesStarted p opts env.connID
          rcases hgt : getTelegramConn p opts env.connID with ⟨t, g⟩
          rw [hgt] at hg
          simp only at hg
          have hr : ∀ serverConn, _ := fun serverConn =>
            relay_pipesStarted p env conn serverConn opts
          by_cases hso : p.conf.SecureOnly = true
          · rcases opts with _ | o
            · rcases serr with _ | serr <;> simp [acceptBody, hs, hi, hso, pipesStarted]
            · rcases ht : (o.ConnectionType != ConnectionType.Secure) with _ | _
              · rcases g with (e | sc) | msg
                · rcases serr with _ | serr <;>
                    simp [acceptBody, hs, hi, hso, ht, hgt, hg, pipesStarted,
                      pipesStarted_append]
                · rcases serr with _ | serr <;>
                    simpa [acceptBody, hs, hi, hso, ht, hgt, hg, pipesStarted,
                      pipesStarted_append] using hr sc
                · rcases serr with _ | serr <;>
                    simp [acceptBody, hs, hi, hso, ht, hgt, hg, pipesStarted,
                      pipesStarted_append]
              · rcases serr with _ | serr <;>
                  simp [acceptBody, hs, hi, hso, ht, pipesStarted, pipesStarted_append]
          · simp only [Bool.not_eq_true] at hso
            rcases g with (e | sc) | msg
            · rcases serr with _ | serr <;>
                simp [acceptBody, hs, hi, hso, hgt, hg, pipesStarted, pipesStarted_append]
            · rcases serr with _ | serr <;>
                simpa [acceptBody, hs, hi, hso, hgt, hg, pipesStarted,
                  pipesStarted_append] using hr sc
            · rcases serr with _ | serr <;>
                simp [acceptBody, hs, hi, hso, hgt, hg, pipesStarted, pipesStarted_append]
      · rcases serr with _ | serr <;>
          simp [acceptBody, hs, hi, pipesStarted, pipesStarted_append]
    · rcases serr with _ | serr <;> simp [acceptBody, hs, hi, pipesStarted, pipesStarted_append]
  · simp [acceptBody, hs, pipesStarted]

theorem accept_trace {σ : Type} (p : Proxy σ) (env : AcceptEnv) (w : InitWorld σ) :
    (accept p env w).trace = (acceptBody p env w).trace ∨
    ∃ d, (d = [] ∨ d = [.closeClient] ∨ d = [.closeServer, .closeClient]) ∧
      (accept p env w).trace = (acceptBody p env w).trace ++ d ++
        [.cancel, .closeConn, .recover (recover (acceptBody p env w).exit).1] := by
  obtain ⟨hd, -⟩ := acceptBody_shape p env w
  unfold accept
  rcases hx : (acceptBody p env w).exit with _ | msg | _
  · right
    rcases hd with hd | hd | hd <;> simp [hx, hd]
  · right
    rcases hd with hd | hd | hd <;> simp [hx, hd]
  · left
    simp [hx]

theorem accept_pipesStarted {σ : Type} (p : Proxy σ) (env : AcceptEnv) (w : InitWorld σ) :
    pipesStarted (accept p env w).trace = pipesStarted (acceptBody p env w).trace := by
  rcases accept_trace p env w with h | ⟨d, hd, h⟩
  · rw [h]
  · rw [h]
    rcases hd with hd | hd | hd <;> simp [hd, pipesStarted_append, pipesStarted]

theorem accept_logged {σ : Type} (p : Proxy σ) (env : AcceptEnv) (w : InitWorld σ) :
    logged (accept p env w).trace = logged (acceptBody p env w).trace := by
  rcases accept_trace p env w with h | ⟨d, hd, h⟩
  · rw [h]
  · rw [h]
    rcases hd with hd | hd | hd <;> simp [hd, logged_append, logged]

theorem accept_never_panics {σ : Type} (p : Proxy σ) (env : AcceptEnv) (w : InitWorld σ)
    (msg : String) : (accept p env w).exit ≠ .panicked msg := by
  unfold accept
  rcases hx : (acceptBody p env w).exit with _ | m | _ <;> simp [hx, recover]

theorem accept_of_panic {σ : Type} (p : Proxy σ) (env : AcceptEnv) (w : InitWorld σ)
    (msg : String) (hx : (acceptBody p env w).exit = .panicked msg) :
    (accept p env w).exit = .returned ∧
    ∃ d, (d = [] ∨ d = [.closeClient] ∨ d = [.closeServer, .closeClient]) ∧
      (accept p env w).trace = (acceptBody p env w).trace ++ d ++
        [.cancel, .closeConn, .recover (some msg)] := by
  obtain ⟨hd, -⟩ := acceptBody_shape p env w
  unfold accept
  rcases hd with hd | hd | hd <;> simp [hx, hd, recover]

theorem getTelegramConn_dial {σ : Type} (p : Proxy σ) (opts : Option ConnectionOpts)
    (connID : String) : ∃ rest, (getTelegramConn p opts connID).1 = .dial :: rest := by
  unfold getTelegramConn
  split
  · exact ⟨_, rfl⟩
  · exact ⟨_, rfl⟩
  · split <;> exact ⟨_, rfl⟩

theorem mem_accept_of_mem_body {σ : Type} (p : Proxy σ) (env : AcceptEnv) (w : InitWorld σ)
    (e : Event) (h : e ∈ (acceptBody p env w).trace) : e ∈ (accept p env w).trace := by
  rcases accept_trace p env w with h1 | ⟨d, -, h1⟩
  · rw [h1]; exact h
  · rw [h1]; simp [h]

theorem acceptBody_rejected {σ : Type} (p : Proxy σ) (env : AcceptEnv) (w w1 : InitWorld σ)
    (secrets : List Secret) (serr : Option Error) (conn : Wrap) (opts : ConnectionOpts)
    (hs : p.secrets = .returned (secrets, serr))
    (hi : p.clientInit p.antiReplayCache env.now env.connID p.conf secrets w =
      (.returned ⟨some conn, some opts, none⟩, w1))
    (hso : p.conf.SecureOnly = true) (hty : opts.ConnectionType ≠ .Secure) :
    (accept p env w).exit = .returned ∧
    (accept p env w).trace =
      [.log .info "Client connected", .secrets] ++
      (if serr.isSome then [.log .error "Failed to get secrets"] else []) ++
      [.clientInit, .log .error "Proxy supports only secure connections", .closeClient,
        .cancel, .closeConn, .recover none] := by
  have hne : (opts.ConnectionType != ConnectionType.Secure) = true := by simpa using hty
  rcases serr with _ | serr <;> simp [accept, acceptBody, hs, hi, hso, hne, recover]

theorem acceptBody_init_error {σ : Type} (p : Proxy σ) (env : AcceptEnv) (w w1 : InitWorld σ)
    (secrets : List Secret) (serr : Option Error) (conn : Option Wrap)
    (opts : Option ConnectionOpts) (err : Error)
    (hs : p.secrets = .returned (secrets, serr))
    (hi : p.clientInit p.antiReplayCache env.now env.connID p.conf secrets w =
      (.returned ⟨conn, opts, some err⟩, w1)) :
    (accept p env w).exit = .returned ∧
    (accept p env w).trace =
      [.log .info "Client connected", .secrets] ++
      (if serr.isSome then [.log .error "Failed to get secrets"] else []) ++
      [.clientInit, .log .error "Cannot initialize client connection",
        .cancel, .closeConn, .recover none] := by
  rcases serr with _ | serr <;> simp [accept, acceptBody, hs, hi, recover]

theorem acceptBody_dials {σ : Type} (p : Proxy σ) (env : AcceptEnv) (w w1 : InitWorld σ)
    (secrets : List Secret) (serr : Option Error) (conn : Wrap) (opts : ConnectionOpts)
    (hs : p.secrets = .returned (secrets, serr))
    (hi : p.clientInit p.antiReplayCache env.now env.connID p.conf secrets w =
      (.returned ⟨some conn, some opts, none⟩, w1))
    (hpol : p.conf.SecureOnly = false ∨ opts.ConnectionType = .Secure) :
    .dial ∈ (acceptBody p env w).trace := by
  obtain ⟨rest, hd⟩ := getTelegramConn_dial p (some opts) env.connID
  rcases hgt : getTelegramConn p (some opts) env.connID with ⟨t, g⟩
  rw [hgt] at hd
  simp only at hd
  have hp : (if p.conf.SecureOnly = true then
      GoExit.returned (opts.ConnectionType != ConnectionType.Secure)
      else GoExit.returned false) = GoExit.returned false := by
    rcases hpol with h | h
    · simp [h]
    · simp [h]
  rcases g with (e | sc) | msg <;>
    rcases serr with _ | serr <;>
      simp [acceptBody, hs, hi, hp, hgt, hd]

theorem init_returned_of_succeeded {σ : Type} (x : GoExit InitReturn × InitWorld σ)
    (conn : Wrap) (opts : ConnectionOpts)
    (hok : InitSucceeded x.1 = true) (hc : InitConn x.1 = some conn)
    (ho : InitOpts x.1 = some opts) :
    x = (.returned ⟨some conn, some opts, none⟩, x.2) := by
  rcases x with ⟨r, w1⟩
  rcases r with ⟨c, o, e⟩ | msg
  · simp only [InitSucceeded, InitConn, InitOpts] at hok hc ho
    rcases e with _ | e
    · simp [hc, ho]
    · simp at hok
  · simp [InitSucceeded] at hok

theorem init_returned_of_failed {σ : Type} (x : GoExit InitReturn × InitWorld σ)
    (hf : InitFailed x.1 = true) :
    ∃ conn opts err, x = (.returned ⟨conn, opts, some err⟩, x.2) := by
  rcases x with ⟨r, w1⟩
  rcases r with ⟨c, o, e⟩ | msg
  · rcases e with _ | e
    · simp [InitFailed] at hf
    · exact ⟨c, o, e, rfl⟩
  · simp [InitFailed] at hf

/-! ## Claims about accept and the relay pipes -/

/-- C3: when the client initialisation succeeds, `SecureOnly` is set and the
negotiated type is not `ConnectionTypeSecure`, `accept` returns without
calling the upstream `Dial` or `Init`, having closed the client connection
and the socket; when `SecureOnly` is off or the type is
`ConnectionTypeSecure`, `accept` calls `Dial`; when the client
initialisation returns an error, `accept` returns without `Dial` or
`Init`. -/
theorem accept_secure_only {σ : Type} (p : Proxy σ) (env : AcceptEnv) (w : InitWorld σ)
    (secrets : List Secret) (serr : Option Error)
    (hs : p.secrets = .returned (secrets, serr)) :
    (∀ conn opts,
      InitSucceeded (p.clientInit p.antiReplayCache env.now env.connID p.conf secrets w).1 = true →
      InitConn (p.clientInit p.antiReplayCache env.now env.connID p.conf secrets w).1 = some conn →
      InitOpts (p.clientInit p.antiReplayCache env.now env.connID p.conf secrets w).1 = some opts →
      p.conf.SecureOnly = true → opts.ConnectionType ≠ .Secure →
      Event.dial ∉ (accept p env w).trace ∧ Event.init ∉ (accept p env w).trace ∧
      Event.closeClient ∈ (accept p env w).trace ∧ Event.closeConn ∈ (accept p env w).trace ∧
      (accept p env w).exit = .returned) ∧
    (∀ conn opts,
      InitSucceeded (p.clientInit p.antiReplayCache env.now env.connID p.conf secrets w).1 = true →
      InitConn (p.clientInit p.antiReplayCache env.now env.connID p.conf secrets w).1 = some conn →
      InitOpts (p.clientInit p.antiReplayCache env.now env.connID p.conf secrets w).1 = some opts →
      (p.conf.SecureOnly = false ∨ opts.ConnectionType = .Secure) →
      Event.dial ∈ (accept p env w).trace) ∧
    (InitFailed (p.clientInit p.antiReplayCache env.now env.connID p.conf secrets w).1 = true →
      Event.dial ∉ (accept p env w).trace ∧ Event.init ∉ (accept p env w).trace ∧
      Event.closeConn ∈ (accept p env w).trace ∧ (accept p env w).exit = .returned) := by
  refine ⟨?_, ?_, ?_⟩
  · intro conn opts hok hc ho hso hty
    have hi := init_returned_of_succeeded _ conn opts hok hc ho
    obtain ⟨hx, ht⟩ := acceptBody_rejected p env w _ secrets serr conn opts hs hi hso hty
    rw [ht]
    rcases serr with _ | serr <;> simp [hx]
  · intro conn opts hok hc ho hpol
    have hi := init_returned_of_succeeded _ conn opts hok hc ho
    exact mem_accept_of_mem_body p env w _
      (acceptBody_dials p env w _ secrets serr conn opts hs hi hpol)
  · intro hf
    obtain ⟨conn, opts, err, hi⟩ := init_returned_of_failed _ hf
    obtain ⟨hx, ht⟩ := acceptBody_init_error p env w _ secrets serr conn opts err hs hi
    rw [ht]
    rcases serr with _ | serr <;> simp [hx]

/-- C3 at sample connections of a proxy with `SecureOnly` set: a frame
negotiating the intermediate type is not dialled, a frame negotiating the
secure type is. -/
theorem accept_secure_only_witness :
    Event.dial ∉ (accept (sampleProxy (sampleConfig true [])) sampleEnv
      (sampleWorld (sampleFrame 7 1) [])).trace ∧
    Event.dial ∈ (accept (sampleProxy (sampleConfig true [])) sampleEnv
      (sampleWorld (sampleFrame 7 2) [])).trace :=
  ⟨((accept_secure_only (sampleProxy (sampleConfig true [])) sampleEnv
      (sampleWorld (sampleFrame 7 1) []) [[7]] none rfl).1
      (.streamCipher (.conn
        { sampleSocket [] with
          noDelay := false, readBuffer := 131072, writeBuffer := 65536,
          calls := [.setNoDelay false, .setReadBuffer 131072, .setWriteBuffer 65536,
            .setReadDeadline (some 10000000005), .read 64, .setReadDeadline none] }
        "c1" .Client [] []) ([7, 1] ++ List.replicate 30 0) (List.replicate 32 0))
      { DC := 2, ConnectionType := .Intermediate, ConnectionProto := .Any,
        ReadHacks := ⟨false, false⟩, WriteHacks := ⟨false, false⟩,
        ClientAddr := some ⟨[192, 0, 2, 7], 50000⟩ }
      (by decide) (by decide) (by decide) (by decide) (by decide)).1,
   (accept_secure_only (sampleProxy (sampleConfig true [])) sampleEnv
      (sampleWorld (sampleFrame 7 2) []) [[7]] none rfl).2.1
      (.streamCipher (.conn
        { sampleSocket [] with
          noDelay := false, readBuffer := 131072, writeBuffer := 65536,
          calls := [.setNoDelay false, .setReadBuffer 131072, .setWriteBuffer 65536,
            .setReadDeadline (some 10000000005), .read 64, .setReadDeadline none] }
        "c1" .Client [] []) ([7, 2] ++ List.replicate 30 0) (List.replicate 32 0))
      { DC := 2, ConnectionType := .Secure, ConnectionProto := .Any,
        ReadHacks := ⟨false, false⟩, WriteHacks := ⟨false, false⟩,
        ClientAddr := some ⟨[192, 0, 2, 7], 50000⟩ }
      (by decide) (by decide) (by decide) (by decide)⟩

/-- C4: at every call of `src.Read` in `middlePipe` (the first call, which
always happens, and every later one, whatever the earlier reads and writes
left in the block) both flags of the hints block are false; in middle mode
`accept` starts no pipes or exactly two, the one started with `go` on
`opts.ReadHacks` and its own on `opts.WriteHacks`; the two blocks are
distinct, and a store through one leaves the other unchanged. -/
theorem middlePipe_hints_cleared {σ : Type} (reads : List ReadOutcome)
    (writes : List WriteOutcome) (hacks h : Hacks) (p : Proxy σ) (env : AcceptEnv)
    (w : InitWorld σ) (opts : ConnectionOpts) :
    (∀ x ∈ readFlags (middlePipe reads writes hacks).trace,
      x.SimpleAck = false ∧ x.QuickAck = false) ∧
    (middlePipe reads writes hacks).trace.head? = some (.readCall ⟨false, false⟩) ∧
    (p.conf.UseMiddleProxy = true →
      pipesStarted (accept p env w).trace = [] ∨
      pipesStarted (accept p env w).trace =
        [(true, .middle .client .server .ReadHacks),
         (false, .middle .server .client .WriteHacks)]) ∧
    HacksRef.ReadHacks ≠ HacksRef.WriteHacks ∧
    HacksRef.WriteHacks.load (HacksRef.ReadHacks.store opts h) = HacksRef.WriteHacks.load opts ∧
    HacksRef.ReadHacks.load (HacksRef.WriteHacks.store opts h) = HacksRef.ReadHacks.load opts := by
  refine ⟨middlePipe_readFlags reads writes hacks, middlePipe_first_event reads writes hacks,
    ?_, by decide, rfl, rfl⟩
  intro hm
  rw [accept_pipesStarted]
  rcases (acceptBody_shape p env w).2 with h0 | ⟨-, h1⟩ | ⟨h2, -⟩
  · exact Or.inl h0
  · exact Or.inr h1
  · rw [hm] at h2
    cases h2

/-- C4 at a sample middle-mode connection: the framer sets a flag during
the first read, and the second read is again called with cleared flags. -/
theorem middlePipe_hints_cleared_witness :
    readFlags (middlePipe sampleEnv.reads sampleEnv.writes ⟨true, true⟩).trace =
      [⟨false, false⟩, ⟨false, false⟩] ∧
    pipesStarted (accept (sampleProxy (sampleConfig false [1])) sampleEnv
        (sampleWorld (sampleFrame 7 1) [])).trace =
      [(true, .middle .client .server .ReadHacks),
       (false, .middle .server .client .WriteHacks)] := by
  have h := middlePipe_hints_cleared sampleEnv.reads sampleEnv.writes ⟨true, true⟩
    ⟨true, true⟩ (sampleProxy (sampleConfig false [1])) sampleEnv
    (sampleWorld (sampleFrame 7 1) []) ⟨2, .Secure, .Any, ⟨true, true⟩, ⟨true, true⟩, none⟩
  refine ⟨by decide, ?_⟩
  rcases h.2.2.1 (by decide) with h0 | h1
  · exact absurd h0 (by decide)
  · exact h1

/-- C5: the packets `middlePipe` passes to `dst.Write` are exactly the
packets returned by its successful reads, in order, and they are the packets
the scripts deliver up to the first read error or the first failed write;
after the first error no further `Read` or `Write` is issued; the pipe
returns exactly when an error occurred, and then `wait.Done()` was called
exactly once (never more than once in any run); and the pipe does end when
the scripts contain an outcome other than a success early enough to be
met. -/
theorem middlePipe_fifo (reads : List ReadOutcome) (writes : List WriteOutcome)
    (hacks : Hacks) :
    writtenPackets (middlePipe reads writes hacks).trace =
      readPackets (middlePipe reads writes hacks).trace ∧
    writtenPackets (middlePipe reads writes hacks).trace = relayedSpec reads writes ∧
    callsAfterError (middlePipe reads writes hacks).trace = [] ∧
    ((middlePipe reads writes hacks).trace.any PipeEvent.isError = true ↔
      (middlePipe reads writes hacks).exit = .returned) ∧
    ((middlePipe reads writes hacks).exit = .returned →
      doneCount (middlePipe reads writes hacks).trace = 1) ∧
    doneCount (middlePipe reads writes hacks).trace ≤ 1 ∧
    (meetsFailure reads writes = true ↔ (middlePipe reads writes hacks).exit ≠ .blocked) := by
  refine ⟨middlePipe_written_eq_read reads writes hacks,
    middlePipe_written_eq_spec reads writes hacks,
    middlePipe_callsAfterError reads writes hacks,
    (middlePipe_returned_iff reads writes hacks).symm, ?_, ?_,
    (middlePipe_not_blocked_iff reads writes hacks).symm⟩
  · intro hx
    rw [middlePipe_doneCount, hx]
    simp
  · rw [middlePipe_doneCount]
    split <;> simp

/-- C5 at a sample run: three packets are read, the write of the second
fails; the first two are passed on, the third is never read. -/
theorem middlePipe_fifo_witness :
    writtenPackets (middlePipe
      [.packet [1] ⟨false, false⟩, .packet [2] ⟨true, false⟩, .packet [3] ⟨false, false⟩]
      [.written ⟨false, false⟩, .error (.new "broken pipe") ⟨false, false⟩]
      ⟨false, false⟩).trace = [[1], [2]] ∧
    doneCount (middlePipe
      [.packet [1] ⟨false, false⟩, .packet [2] ⟨true, false⟩, .packet [3] ⟨false, false⟩]
      [.written ⟨false, false⟩, .error (.new "broken pipe") ⟨false, false⟩]
      ⟨false, false⟩).trace = 1 := by
  have h := middlePipe_fifo
    [.packet [1] ⟨false, false⟩, .packet [2] ⟨true, false⟩, .packet [3] ⟨false, false⟩]
    [.written ⟨false, false⟩, .error (.new "broken pipe") ⟨false, false⟩] ⟨false, false⟩
  exact ⟨h.2.1.trans (by decide), h.2.2.2.2.1 (by decide)⟩

/-- C8, as the code has it: once the connection id has been generated,
`accept` never ends in a panic; when its body panics (the handler being
deferred by then) the deferred closers run, the context is cancelled, the
accepted socket is closed and `recover` returns the panic value, after which
`accept` returns; the handler does nothing with the value, so the log holds
only what the body logged before the panic. -/
theorem accept_recovers_own_panic {σ : Type} (p : Proxy σ) (env : AcceptEnv)
    (w : InitWorld σ) :
    (∀ msg, (goAccept p none env w).exit ≠ .panicked msg) ∧
    (∀ msg, (acceptBody p env w).exit = .panicked msg →
      (goAccept p none env w).exit = .returned ∧
      (∃ d, (d = [] ∨ d = [.closeClient] ∨ d = [.closeServer, .closeClient]) ∧
        (goAccept p none env w).trace = (acceptBody p env w).trace ++ d ++
          [.cancel, .closeConn, .recover (some msg)]) ∧
      logged (goAccept p none env w).trace = logged (acceptBody p env w).trace) :=
  ⟨accept_never_panics p env w,
    fun msg hx => ⟨(accept_of_panic p env w msg hx).1, (accept_of_panic p env w msg hx).2,
      accept_logged p env w⟩⟩

/-- C8 at two sample connections: a middle-mode frame negotiating an unknown
connection type, so that `MiddleInit` panics, and a direct-mode connection
with a write buffer of 0 bytes, so that the pipe `accept` runs itself panics
in `io.CopyBuffer`; both panics are recovered. -/
theorem accept_recovers_own_panic_witness :
    ((acceptBody (sampleProxy (sampleConfig false [1])) sampleEnv
        (sampleWorld (sampleFrame 7 9) [])).exit = .panicked "Unknown connection type" ∧
      (goAccept (sampleProxy (sampleConfig false [1])) none sampleEnv
        (sampleWorld (sampleFrame 7 9) [])).exit = .returned) ∧
    ((acceptBody (sampleProxy { sampleConfig false [] with WriteBufferSize := 0 }) sampleEnv
        (sampleWorld (sampleFrame 7 1) [])).exit = .panicked "empty buffer in CopyBuffer" ∧
      (goAccept (sampleProxy { sampleConfig false [] with WriteBufferSize := 0 }) none
        sampleEnv (sampleWorld (sampleFrame 7 1) [])).exit = .returned) :=
  ⟨⟨by decide,
    ((accept_recovers_own_panic (sampleProxy (sampleConfig false [1])) sampleEnv
      (sampleWorld (sampleFrame 7 9) [])).2 "Unknown connection type" (by decide)).1⟩,
   ⟨by decide,
    ((accept_recovers_own_panic (sampleProxy { sampleConfig false [] with WriteBufferSize := 0 })
      sampleEnv (sampleWorld (sampleFrame 7 1) [])).2 "empty buffer in CopyBuffer"
      (by decide)).1⟩⟩

/-- C8 as stated fails, in three ways.  When `MiddleInit` panics on an
unknown connection type, `accept` recovers the panic and returns, and the
only log entry of the run is the one written on connect: no entry records
the crash.  In direct mode with a read buffer of 0 bytes the pipe started
with `go` panics in `io.CopyBuffer`; `accept` itself returns with `recover`
yielding nothing, and the panic terminates the program.  When `uuid.NewV4`
fails, `uuid.Must` panics before the handler is deferred: the panic leaves
`accept`, with the context not cancelled and the socket not closed. -/
theorem accept_panic_counterexample :
    ((goAccept (sampleProxy (sampleConfig false [1])) none sampleEnv
        (sampleWorld (sampleFrame 7 9) [])).trace =
        [.log .info "Client connected", .secrets, .clientInit, .cancel, .closeConn,
          .recover (some "Unknown connection type")] ∧
      logged (goAccept (sampleProxy (sampleConfig false [1])) none sampleEnv
        (sampleWorld (sampleFrame 7 9) [])).trace = [⟨.info, "Client connected"⟩]) ∧
    ((goAccept (sampleProxy { sampleConfig false [] with ReadBufferSize := 0 }) none sampleEnv
        (sampleWorld (sampleFrame 7 1) [])).spawned =
        some ⟨[.makeBuffer 0, .copyBuffer 0, .done], .panicked "empty buffer in CopyBuffer"⟩ ∧
      (goAccept (sampleProxy { sampleConfig false [] with ReadBufferSize := 0 }) none sampleEnv
        (sampleWorld (sampleFrame 7 1) [])).trace.getLast? = some (.recover none) ∧
      (goAccept (sampleProxy { sampleConfig false [] with ReadBufferSize := 0 }) none sampleEnv
        (sampleWorld (sampleFrame 7 1) [])).crash = some "empty buffer in CopyBuffer") ∧
    ((goAccept (sampleProxy (sampleConfig false [])) (some (.new "no entropy")) sampleEnv
        (sampleWorld (sampleFrame 7 1) [])).exit = .panicked "no entropy" ∧
      (goAccept (sampleProxy (sampleConfig false [])) (some (.new "no entropy")) sampleEnv
        (sampleWorld (sampleFrame 7 1) [])).trace = [] ∧
      (goAccept (sampleProxy (sampleConfig false [])) (some (.new "no entropy")) sampleEnv
        (sampleWorld (sampleFrame 7 1) [])).crash = some "no entropy") := by
  decide

/-- C9: in direct mode with the default sizes (write buffer 65536, read
buffer 131072) the copy from the client to Telegram is started with a buffer
of `conf.ReadBufferSize` = 131072 bytes and the copy from Telegram to the
client with `conf.WriteBufferSize` = 65536 bytes, the reverse of what the
flag documentation assigns. -/
theorem accept_direct_buffer_sizes :
    (sampleConfig false []).UseMiddleProxy = false ∧
    (sampleConfig false []).WriteBufferSize = 65536 ∧
    (sampleConfig false []).ReadBufferSize = 131072 ∧
    pipesStarted (accept (sampleProxy (sampleConfig false [])) sampleEnv
        (sampleWorld (sampleFrame 7 1) [])).trace =
      [(true, .direct .client .server 131072), (false, .direct .server .client 65536)] ∧
    (directPipe .blocked 131072).1 = [.makeBuffer 131072, .copyBuffer 131072] := by
  decide

/-! ## Two connections with the same frame -/

/-- The two observation steps of one connection, run back to back, are the
cache part of `DirectInit`: same final cache, fresh iff `DirectInit`
succeeds. -/
theorem observeStep_refines_DirectInit {σ : Type} (parse : FrameParser) (C : Cache σ)
    (now : Nat) (connID : String) (conf : Config) (secrets : List Secret) (w : InitWorld σ)
    (F : Frame) (o : Obfuscated2 × ConnectionOpts)
    (hF : w.socket.delivers F) (hparse : parse secrets F = .ok o) :
    (observeStep C F (observeStep C F w.cache .start).1 (observeStep C F w.cache .start).2).1 =
      (DirectInit parse C now connID conf secrets w).2.cache ∧
    ((observeStep C F (observeStep C F w.cache .start).1
        (observeStep C F w.cache .start).2).2 = .fresh ↔
      InitSucceeded (DirectInit parse C now connID conf secrets w).1 = true) := by
  rcases hhas : C.Has w.cache F with _ | _
  · obtain ⟨⟨conn, hr⟩, hc, -⟩ :=
      DirectInit_fresh parse C now connID conf secrets w F o hF hparse hhas
    simp [observeStep, hhas, hr, hc, InitSucceeded]
  · obtain ⟨hr, hc, -⟩ := DirectInit_replay parse C now connID conf secrets w F o hF hparse hhas
    simp [observeStep, hhas, hr, hc, InitSucceeded]

theorem raceStep_settled {σ : Type} (C : Cache σ) (F : Frame) (r : Race σ) (who : Bool)
    (h : Race.settled C F r) : Race.settled C F (raceStep C F r who) := by
  obtain ⟨hc, h1, h2, h3⟩ := h
  rcases r with ⟨c, a, b⟩
  simp only at hc h1 h2 h3
  cases who <;> cases a <;> cases b <;>
    simp_all [raceStep, observeStep, Race.settled]

theorem foldl_raceStep_settled {σ : Type} (C : Cache σ) (F : Frame) (schedule : List Bool) :
    ∀ r : Race σ, Race.settled C F r →
      Race.settled C F (schedule.foldl (raceStep C F) r) := by
  induction schedule with
  | nil => intro r h; exact h
  | cons who rest ih => intro r h; exact ih _ (raceStep_settled C F r who h)

theorem foldl_raceStep_committed {σ : Type} (C : Cache σ) (F : Frame) (schedule : List Bool) :
    ∀ r : Race σ, Race.committed r →
      Race.committed (schedule.foldl (raceStep C F) r) ∧
      ((false ∈ schedule ∨ r.first = .fresh) →
        (schedule.foldl (raceStep C F) r).first = .fresh) ∧
      ((true ∈ schedule ∨ r.second = .fresh) →
        (schedule.foldl (raceStep C F) r).second = .fresh) := by
  induction schedule with
  | nil => intro r h; simp [h]
  | cons who rest ih =>
    intro r h
    have hstep : Race.committed (raceStep C F r who) ∧
        ((who = false ∨ r.first = .fresh) → (raceStep C F r who).first = .fresh) ∧
        ((who = true ∨ r.second = .fresh) → (raceStep C F r who).second = .fresh) := by
      obtain ⟨h1, h2⟩ := h
      rcases r with ⟨c, a, b⟩
      simp only at h1 h2
      cases who <;> rcases h1 with h1 | h1 <;> rcases h2 with h2 | h2 <;>
        simp [raceStep, observeStep, Race.committed, h1, h2]
    obtain ⟨hc, hf, hs⟩ := ih _ hstep.1
    refine ⟨hc, ?_, ?_⟩
    · intro hx
      apply hf
      rcases hx with hx | hx
      · rcases List.mem_cons.1 hx with hx | hx
        · exact Or.inr (hstep.2.1 (Or.inl hx.symm))
        · exact Or.inl hx
      · exact Or.inr (hstep.2.1 (Or.inr hx))
    · intro hx
      apply hs
      rcases hx with hx | hx
      · rcases List.mem_cons.1 hx with hx | hx
        · exact Or.inr (hstep.2.2 (Or.inl hx.symm))
        · exact Or.inl hx
      · exact Or.inr (hstep.2.2 (Or.inr hx))

/-- C10, as the code has it: the observation is a `Has` call followed by a
separate `Add` call.  For a frame absent from a cache that retains it on
insertion: in every schedule in which one connection makes both its calls
before the other makes its first, not both connections are treated as fresh;
in every schedule in which both `Has` calls come first and both connections
are then scheduled again, both are treated as fresh. -/
theorem observe_check_then_insert {σ : Type} (C : Cache σ) (F : Frame) (c : σ)
    (who : Bool) (rest : List Bool)
    (habs : C.Has c F = false) (hret : C.Has (C.Add c F) F = true) :
    ¬ ((race C F c (who :: who :: rest)).first = .fresh ∧
        (race C F c (who :: who :: rest)).second = .fresh) ∧
    (false ∈ rest → true ∈ rest →
      (race C F c (who :: (!who) :: rest)).first = .fresh ∧
      (race C F c (who :: (!who) :: rest)).second = .fresh) := by
  constructor
  · have h0 : Race.settled C F
        (raceStep C F (raceStep C F { cache := c, first := .start, second := .start } who)
          who) := by
      cases who <;> simp [raceStep, observeStep, Race.settled, habs, hret]
    exact (foldl_raceStep_settled C F rest _ h0).2.2.2
  · intro hf ht
    have h0 : Race.committed
        (raceStep C F (raceStep C F { cache := c, first := .start, second := .start } who)
          (!who)) := by
      cases who <;> simp [raceStep, observeStep, Race.committed, habs]
    obtain ⟨-, h1, h2⟩ := foldl_raceStep_committed C F rest _ h0
    exact ⟨h1 (Or.inl hf), h2 (Or.inl ht)⟩

/-- C10 at a sample frame and an empty never-evicting cache: run one after
the other, the first connection is fresh and the second a replay. -/
theorem observe_check_then_insert_witness :
    setCache.Has [] (sampleFrame 7 1) = false ∧
    (race setCache (sampleFrame 7 1) [] [false, false, true, true]).first = .fresh ∧
    (race setCache (sampleFrame 7 1) [] [false, false, true, true]).second = .replay ∧
    ¬ ((race setCache (sampleFrame 7 1) [] [false, false, true, true]).first = .fresh ∧
        (race setCache (sampleFrame 7 1) [] [false, false, true, true]).second = .fresh) :=
  ⟨by decide, by decide, by decide,
    (observe_check_then_insert setCache (sampleFrame 7 1) [] false [true, true]
      (by decide) (by decide)).1⟩

/-- C10 as stated fails: with the frame absent from a never-evicting cache,
the interleaving `Has`, `Has`, `Add`, `Add` of two connections treats both as
fresh. -/
theorem observe_not_atomic_counterexample :
    setCache.Has [] (sampleFrame 7 1) = false ∧
    (race setCache (sampleFrame 7 1) [] [false, true, false, true]).first = .fresh ∧
    (race setCache (sampleFrame 7 1) [] [false, true, false, true]).second = .fresh := by
  decide

end Mtg
